import Mathlib

/-!
Verification of the website-ux-reviewer scoring core.

This file gives a shallow embedding, over `ℚ`, of the deterministic
scoring pipeline of the repository (motion analyzer, content analyzer,
UX-intelligence analyzer, health-score composer, issue enrichment,
fallback review generator, audit diff engine, review sanitizer and the
score-drop alert decision), and proves or refutes the specification
claims about them.

Modelling conventions:
* JavaScript `number` is modelled by `ℚ`; where `NaN` is reachable
  (the review sanitizer works on untyped JSON) a number is `Option ℚ`
  with `none` standing for `NaN`.  Infinities are conflated with `NaN`.
* `Math.round` is `⌊x + 1/2⌋` (round half towards +∞), `toFixed(k)`
  rounds half away from zero on the scaled value.
* Strings are Lean `String`s; `String.length` counts code points where
  JavaScript counts UTF-16 units (they agree on the inputs considered
  here), and `toLowerCase` is modelled on ASCII letters.
-/

namespace UXReviewer

/-- JS `Math.round`: round half towards positive infinity. -/
def jsRound (q : ℚ) : ℤ := ⌊q + 1/2⌋

/-- JS rounding used by `Number.prototype.toFixed`: half away from zero. -/
def jsRoundAway (q : ℚ) : ℤ := if 0 ≤ q then ⌊q + 1/2⌋ else -⌊-q + 1/2⌋

/-- `clamp` from `motion-intelligence.ts`, `ux-intelligence.ts` and
`audit-intelligence.ts`, and `clampScore` from `analysis.ts` (all share one
body): `Math.max(0, Math.min(100, Math.round(value)))`. -/
def clampQ (q : ℚ) : ℚ := max 0 (min 100 ((jsRound q : ℤ) : ℚ))

/-- `Number(x.toFixed(1))`. -/
def toFixed1 (q : ℚ) : ℚ := ((jsRoundAway (q * 10) : ℤ) : ℚ) / 10

/-- `Number(x.toFixed(2))`. -/
def toFixed2 (q : ℚ) : ℚ := ((jsRoundAway (q * 100) : ℤ) : ℚ) / 100

/-- "is an integer lying in [0,100]" for a produced score. -/
def IsIntScore (q : ℚ) : Prop := 0 ≤ q ∧ q ≤ 100 ∧ q.den = 1

theorem jsRound_intCast (n : ℤ) : jsRound (n : ℚ) = n := by
  unfold jsRound
  rw [add_comm, Int.floor_add_int]
  norm_num

theorem clampQ_eq_intCast (q : ℚ) :
    clampQ q = ((max 0 (min 100 (jsRound q)) : ℤ) : ℚ) := by
  unfold clampQ
  push_cast
  norm_num

theorem clampQ_isIntScore (q : ℚ) : IsIntScore (clampQ q) := by
  rw [clampQ_eq_intCast]
  refine ⟨?_, ?_, Rat.den_intCast _⟩
  · exact_mod_cast le_max_left 0 (min 100 (jsRound q))
  · have h : (max 0 (min 100 (jsRound q)) : ℤ) ≤ 100 := by
      rcases le_total (0 : ℤ) (min 100 (jsRound q)) with h | h
      · rw [max_eq_right h]
        exact min_le_left _ _
      · rw [max_eq_left h]
        norm_num
    exact_mod_cast h

theorem clampQ_eq_self {x : ℚ} (h0 : 0 ≤ x) (h100 : x ≤ 100) (hden : x.den = 1) :
    clampQ x = x := by
  obtain ⟨n, rfl⟩ : ∃ n : ℤ, x = (n : ℚ) :=
    ⟨x.num, ((Rat.den_eq_one_iff x).mp hden).symm⟩
  unfold clampQ
  rw [jsRound_intCast]
  rw [min_eq_right (by exact_mod_cast h100), max_eq_right (by exact_mod_cast h0)]

theorem clampQ_idem (q : ℚ) : clampQ (clampQ q) = clampQ q := by
  obtain ⟨h0, h100, hden⟩ := clampQ_isIntScore q
  exact clampQ_eq_self h0 h100 hden

/-! ## Motion analyzer (`src/lib/motion-intelligence.ts`) -/

/-- JS whitespace characters (the ones relevant to this code base). -/
def jsIsSpace (c : Char) : Bool :=
  c = ' ' ∨ c = '\t' ∨ c = '\n' ∨ c = '\r' ∨ c.val = 11 ∨ c.val = 12 ∨
    c.val = 160 ∨ c.val = 0xFEFF

/-- Model of `String.prototype.trim` (drops JS whitespace at both ends). -/
def jsTrimList (l : List Char) : List Char :=
  ((l.dropWhile jsIsSpace).reverse.dropWhile jsIsSpace).reverse

def jsTrim (s : String) : String := String.mk (jsTrimList s.toList)

/-- Insertion-order deduplication, as performed by `new Set(...)`. -/
def dedupFirst : List String → List String
  | [] => []
  | x :: xs => x :: dedupFirst (xs.filter (fun y => y ≠ x))
termination_by l => l.length
decreasing_by
  simp only [List.length_cons]
  exact Nat.lt_succ_of_le (List.length_filter_le _ _)

/-- `unique` from `motion-intelligence.ts` (also `ux-intelligence.ts`):
`[...new Set(items.map((item) => item.trim()).filter(Boolean))]`. -/
def uniqueStrings (items : List String) : List String :=
  dedupFirst ((items.map jsTrim).filter (fun s => s ≠ ""))

inductive MotionType where
  | css | js | scroll | carousel | lottie | video
  deriving DecidableEq, Repr

structure MotionDetectionSnapshot where
  cssAnimations : ℕ
  cssTransitions : ℕ
  jsAnimationHooks : ℕ
  scrollRevealElements : ℕ
  autoCarousels : ℕ
  lottieInstances : ℕ
  videoLikeAnimations : ℕ
  infiniteAnimations : ℕ
  longDurationAnimations : ℕ
  reducedMotionSupport : Bool
  pauseControlPresent : Bool
  flashingRisk : Bool
  lcpElementLikelyAnimated : Bool
  potentialRisks : List String
  deriving DecidableEq, Repr

structure MotionAnalysis where
  animation_count : ℕ
  animations_detected : ℕ
  types : List MotionType
  infinite_animations : ℕ
  auto_carousels : ℕ
  scroll_reveal_elements : ℕ
  long_duration_animations : ℕ
  accessibility_support : Bool
  reduced_motion_css_present : Bool
  pause_control_present : Bool
  flashing_risk : Bool
  lcp_element_likely_animated : Bool
  potential_risks : List String
  performance_correlation : List String
  risk_score : ℚ
  deriving DecidableEq, Repr

/-- The `riskScore` accumulation inside `analyzeMotionSignals`
(`motion-intelligence.ts` lines 79-91), before the final clamp. -/
def motionRiskRaw (s : MotionDetectionSnapshot) : ℤ :=
  let riskScore : ℤ :=
    min 20 ((s.autoCarousels : ℤ) * 12) +
    min 18 ((s.infiniteAnimations : ℤ) * 4) +
    min 14 ((s.longDurationAnimations : ℤ) * 4) +
    min 8 (max 0 ((s.scrollRevealElements : ℤ) - 2) * 2) +
    (if s.flashingRisk then 24 else 0) +
    (if s.lcpElementLikelyAnimated then 10 else 0) +
    (if s.reducedMotionSupport then 0 else 12) +
    (if s.pauseControlPresent then 0 else if s.autoCarousels > 0 then 8 else 0)
  if s.reducedMotionSupport ∧ s.pauseControlPresent then riskScore - 6 else riskScore

/-- `analyzeMotionSignals` from `motion-intelligence.ts`. -/
def analyzeMotionSignals (s : MotionDetectionSnapshot) : MotionAnalysis :=
  let types : List MotionType :=
    (if s.cssAnimations > 0 ∨ s.cssTransitions > 0 then [MotionType.css] else []) ++
    (if s.jsAnimationHooks > 0 then [MotionType.js] else []) ++
    (if s.scrollRevealElements > 0 then [MotionType.scroll] else []) ++
    (if s.autoCarousels > 0 then [MotionType.carousel] else []) ++
    (if s.lottieInstances > 0 then [MotionType.lottie] else []) ++
    (if s.videoLikeAnimations > 0 then [MotionType.video] else [])
  let animationCount :=
    s.cssAnimations + s.cssTransitions + s.jsAnimationHooks +
      s.scrollRevealElements + s.autoCarousels + s.lottieInstances +
      s.videoLikeAnimations
  { animation_count := animationCount
    animations_detected := animationCount
    types := types
    infinite_animations := s.infiniteAnimations
    auto_carousels := s.autoCarousels
    scroll_reveal_elements := s.scrollRevealElements
    long_duration_animations := s.longDurationAnimations
    accessibility_support := s.reducedMotionSupport ∧ (s.pauseControlPresent ∨ s.autoCarousels = 0)
    reduced_motion_css_present := s.reducedMotionSupport
    pause_control_present := s.pauseControlPresent
    flashing_risk := s.flashingRisk
    lcp_element_likely_animated := s.lcpElementLikelyAnimated
    potential_risks := uniqueStrings s.potentialRisks
    performance_correlation := []
    risk_score := clampQ ((motionRiskRaw s : ℤ) : ℚ) }

/-- The motion risk formula exactly as the spec words it (§4.2): additive
factors with per-factor caps, a −6 bonus when both reduced-motion support
and a pause control are present. -/
def motionRiskSpecFormula (s : MotionDetectionSnapshot) : ℤ :=
  min 20 (12 * (s.autoCarousels : ℤ)) +
  min 18 (4 * (s.infiniteAnimations : ℤ)) +
  min 14 (4 * (s.longDurationAnimations : ℤ)) +
  min 8 (2 * max 0 ((s.scrollRevealElements : ℤ) - 2)) +
  (if s.flashingRisk then 24 else 0) +
  (if s.lcpElementLikelyAnimated then 10 else 0) +
  (if ¬ s.reducedMotionSupport then 12 else 0) +
  (if s.autoCarousels > 0 ∧ ¬ s.pauseControlPresent then 8 else 0) -
  (if s.reducedMotionSupport ∧ s.pauseControlPresent then 6 else 0)

/-- Scenario snapshot of claim C6: one auto-carousel, no other motion,
reduced-motion support and a pause control both present. -/
def c6Snapshot : MotionDetectionSnapshot :=
  { cssAnimations := 0, cssTransitions := 0, jsAnimationHooks := 0
    scrollRevealElements := 0, autoCarousels := 1, lottieInstances := 0
    videoLikeAnimations := 0, infiniteAnimations := 0, longDurationAnimations := 0
    reducedMotionSupport := true, pauseControlPresent := true
    flashingRisk := false, lcpElementLikelyAnimated := false, potentialRisks := [] }

/-- C6: the motion risk score equals the additive capped formula of the
spec, clamped to [0,100]; in particular the scenario snapshot (one
auto-carousel, both supports present) scores 12 − 6 = 6. -/
theorem motion_risk_score_formula :
    (∀ s : MotionDetectionSnapshot,
      (analyzeMotionSignals s).risk_score = clampQ (motionRiskSpecFormula s : ℚ)) ∧
    (analyzeMotionSignals c6Snapshot).risk_score = 6 := by
  have key : ∀ s : MotionDetectionSnapshot, motionRiskRaw s = motionRiskSpecFormula s := by
    intro s
    unfold motionRiskRaw motionRiskSpecFormula
    generalize max 0 ((s.scrollRevealElements : ℤ) - 2) = k
    cases hr : s.reducedMotionSupport <;> cases hp : s.pauseControlPresent <;>
      simp [hr, hp, mul_comm]
  constructor
  · intro s
    show clampQ _ = clampQ _
    rw [key s]
  · show clampQ ((motionRiskRaw c6Snapshot : ℤ) : ℚ) = 6
    norm_num [motionRiskRaw, c6Snapshot, clampQ, jsRound]

/-- Snapshot refuting claim C7: one infinite animation and nothing else. -/
def c7Snapshot : MotionDetectionSnapshot :=
  { cssAnimations := 0, cssTransitions := 0, jsAnimationHooks := 0
    scrollRevealElements := 0, autoCarousels := 0, lottieInstances := 0
    videoLikeAnimations := 0, infiniteAnimations := 1, longDurationAnimations := 0
    reducedMotionSupport := true, pauseControlPresent := true
    flashingRisk := false, lcpElementLikelyAnimated := false, potentialRisks := [] }

/-- C7 counterexample: `animation_count` is NOT the sum of all nine raw
counts — with one infinite animation and all other counts zero, the
analyzer reports `animation_count = 0` while the nine-count sum is 1. -/
theorem animation_count_not_sum_of_all_counts :
    ¬ ((analyzeMotionSignals c7Snapshot).animation_count =
        c7Snapshot.cssAnimations + c7Snapshot.cssTransitions +
        c7Snapshot.jsAnimationHooks + c7Snapshot.scrollRevealElements +
        c7Snapshot.autoCarousels + c7Snapshot.lottieInstances +
        c7Snapshot.videoLikeAnimations + c7Snapshot.infiniteAnimations +
        c7Snapshot.longDurationAnimations) := by
  decide

/-- C7 amended: `animation_count` is the sum of the seven raw counts
excluding the infinite-animation and long-duration-animation counts. -/
theorem animation_count_eq_sum_of_seven (s : MotionDetectionSnapshot) :
    (analyzeMotionSignals s).animation_count =
      s.cssAnimations + s.cssTransitions + s.jsAnimationHooks +
        s.scrollRevealElements + s.autoCarousels + s.lottieInstances +
        s.videoLikeAnimations := rfl

/-! ## Health score composer (`src/lib/performance.ts`) -/

/-- `calculateWebsiteHealthScore` from `performance.ts`. -/
def calculateWebsiteHealthScore (uxScore performanceScore accessibilityScore seoScore : ℚ) : ℚ :=
  let healthScore :=
    uxScore * (35/100) + performanceScore * (30/100) +
      accessibilityScore * (20/100) + seoScore * (15/100)
  ((jsRound (max 0 (min 100 healthScore)) : ℤ) : ℚ)

/-- The health formula exactly as the spec words it (§4.7):
`round(clamp(ux×0.35 + performance×0.30 + accessibility×0.20 + seo×0.15))`. -/
def healthScoreSpec (ux performance accessibility seo : ℚ) : ℚ :=
  ((jsRound (max 0 (min 100
      (0.35 * ux + 0.30 * performance + 0.20 * accessibility + 0.15 * seo))) : ℤ) : ℚ)

/-- C3: the website health score is the rounded clamped weighted blend of the
spec, and at the boundary all-100 inputs give 100 while all-0 inputs give 0. -/
theorem health_score_formula :
    (∀ u p a s : ℚ, calculateWebsiteHealthScore u p a s = healthScoreSpec u p a s) ∧
    calculateWebsiteHealthScore 100 100 100 100 = 100 ∧
    calculateWebsiteHealthScore 0 0 0 0 = 0 := by
  refine ⟨fun u p a s => ?_, ?_, ?_⟩
  · unfold calculateWebsiteHealthScore healthScoreSpec
    have harg : u * (35/100) + p * (30/100) + a * (20/100) + s * (15/100) =
        0.35 * u + 0.30 * p + 0.20 * a + 0.15 * s := by
      ring_nf
    rw [harg]
  · norm_num [calculateWebsiteHealthScore, jsRound]
  · norm_num [calculateWebsiteHealthScore, jsRound]

/-! ## Content analyzer (`src/lib/content-intelligence.ts`) -/

/-- Maximal runs of characters satisfying `p` — the list-level helper behind
`match(/[...]+/g)`-style tokenizations. -/
def charRuns (p : Char → Bool) : List Char → List Char → List (List Char)
  | [], acc => if acc = [] then [] else [acc.reverse]
  | c :: cs, acc =>
    if p c then charRuns p cs (c :: acc)
    else if acc = [] then charRuns p cs []
    else acc.reverse :: charRuns p cs []

/-- ASCII model of `String.prototype.toLowerCase`. -/
def charToLower (c : Char) : Char :=
  if 'A' ≤ c ∧ c ≤ 'Z' then Char.ofNat (c.toNat + 32) else c

def jsToLower (s : String) : String := String.mk (s.toList.map charToLower)

/-- Characters matched by `/[a-z0-9']+/` (39 is the apostrophe). -/
def isWordTokenChar (c : Char) : Bool :=
  ('a' ≤ c ∧ c ≤ 'z') ∨ ('0' ≤ c ∧ c ≤ '9') ∨ c = Char.ofNat 39

/-- `toWords`: `(text.toLowerCase().match(/[a-z0-9']+/g) || []).filter(Boolean)`. -/
def toWords (text : String) : List String :=
  (charRuns isWordTokenChar (jsToLower text).toList []).map String.mk

theorem length_dropWhile_le {α : Type} (p : α → Bool) (l : List α) :
    (l.dropWhile p).length ≤ l.length := by
  induction l with
  | nil => simp [List.dropWhile]
  | cons a t ih =>
    simp only [List.dropWhile]
    split
    · exact Nat.le_succ_of_le ih
    · simp

def sentenceEndChar (c : Char) : Bool := c = '.' ∨ c = '!' ∨ c = '?'

mutual

/-- Split on `/(?<=[.!?])\s+/`: a maximal whitespace run preceded by
`.`/`!`/`?` separates sentences and is consumed (`splitSentencesSkip`
consumes the rest of the run before resuming). -/
def splitSentencesAux : List Char → List Char → List (List Char)
  | [], acc => [acc.reverse]
  | c :: cs, acc =>
    if jsIsSpace c && (match acc with | p :: _ => sentenceEndChar p | [] => false) then
      acc.reverse :: splitSentencesSkip cs
    else
      splitSentencesAux cs (c :: acc)

def splitSentencesSkip : List Char → List (List Char)
  | [] => [[]]
  | c :: cs => if jsIsSpace c then splitSentencesSkip cs else splitSentencesAux cs [c]

end

/-- `splitSentences` from `content-intelligence.ts`. -/
def splitSentences (text : String) : List String :=
  ((splitSentencesAux text.toList []).map (fun l => jsTrim (String.mk l))).filter
    (fun s => s ≠ "")

def isLAEIOUY (c : Char) : Bool :=
  c = 'l' ∨ c = 'a' ∨ c = 'e' ∨ c = 'i' ∨ c = 'o' ∨ c = 'u' ∨ c = 'y'

def isVowelY (c : Char) : Bool :=
  c = 'a' ∨ c = 'e' ∨ c = 'i' ∨ c = 'o' ∨ c = 'u' ∨ c = 'y'

/-- The suffix strip `replace(/(?:[^laeiouy]es|ed|[^laeiouy]e)$/, "")`:
the leftmost-starting end-anchored alternative wins. -/
def stripSyllableSuffix (l : List Char) : List Char :=
  match l.reverse with
  | 's' :: 'e' :: c :: rest => if ¬ isLAEIOUY c then rest.reverse else l
  | 'd' :: 'e' :: rest => rest.reverse
  | 'e' :: c :: rest => if ¬ isLAEIOUY c then rest.reverse else l
  | _ => l

/-- `estimateSyllables` from `content-intelligence.ts`: a vowel-group
heuristic; a run of `k` vowels contributes `⌈k/2⌉` groups
(`match(/[aeiouy]{1,2}/g)` chunks greedily). -/
def estimateSyllables (word : String) : ℕ :=
  let clean := (jsToLower word).toList.filter (fun c => 'a' ≤ c ∧ c ≤ 'z')
  if clean = [] then 0
  else if clean.length ≤ 3 then 1
  else
    let stripped := stripSyllableSuffix clean
    let noY := match stripped with
      | 'y' :: rest => rest
      | l => l
    let groups := ((charRuns isVowelY noY []).map (fun g => (g.length + 1) / 2)).sum
    max 1 (if groups = 0 then 1 else groups)

/-- `fleschScore` from `content-intelligence.ts`. -/
def fleschScore (sentences words : List String) : ℚ :=
  if sentences.length = 0 ∨ words.length = 0 then 0
  else
    let syllables : ℕ := (words.map estimateSyllables).sum
    let wordsPerSentence : ℚ := (words.length : ℚ) / (sentences.length : ℚ)
    let syllablesPerWord : ℚ := (syllables : ℚ) / (words.length : ℚ)
    let score := 206.835 - 1.015 * wordsPerSentence - 84.6 * syllablesPerWord
    max 0 (min 100 (toFixed1 score))

/-- The `readability_score` field produced by `analyzeSEOContent`
(`content-intelligence.ts`): `fleschScore(sentences, words)` where words and
sentences are tokenized from `mainText`. -/
def readabilityScoreOf (mainText : String) : ℚ :=
  fleschScore (splitSentences mainText) (toWords mainText)

/-! ## UX intelligence analyzer (`src/lib/ux-intelligence.ts`) -/

structure UXIntelligenceSnapshot where
  ctaCountAboveFold : ℕ
  primaryCtaCountAboveFold : ℕ
  ctaColorVariantCountAboveFold : ℕ
  heroElementCount : ℕ
  heroInteractiveCount : ℕ
  h1DominanceRatio : ℚ
  ctaVisualDominanceRatio : ℚ
  flowReadingIssueCount : ℕ
  leftAlignedKeyElementsRatio : ℚ
  vagueCtaCount : ℕ
  benefitCtaCount : ℕ
  urgencyCtaCount : ℕ
  maxFormFieldCount : ℕ
  requiresPhoneAndEmail : Bool
  progressIndicatorPresent : Bool
  trustBadgePresent : Bool
  testimonialsPresent : Bool
  socialProofPresent : Bool
  aboutOrContactVisible : Bool
  hoverFeedbackSignals : ℕ
  inputFocusSignals : ℕ
  primaryCtaMinY : ℚ
  viewportHeight : ℚ
  menuItemsCount : ℕ
  navMaxDepth : ℕ
  hasHamburger : Bool
  hasVisibleDesktopLikeNav : Bool
  headlineLength : ℕ
  hasValuePropHint : Bool
  deriving DecidableEq, Repr

structure CognitiveLoadAnalysis where
  cta_count_above_fold : ℕ
  primary_cta_conflict : Bool
  competing_color_count : ℕ
  overcrowded_hero : Bool
  risk : String
  cognitive_load_index : ℚ
  deriving DecidableEq, Repr

structure VisualHierarchyAnalysis where
  h1_dominance_ratio : ℚ
  cta_visual_dominance_ratio : ℚ
  color_hierarchy_score : ℚ
  visual_dominance_ratio : ℚ
  score : ℚ
  deriving DecidableEq, Repr

structure FlowAnalysis where
  estimated_pattern : String
  reading_flow_score : ℚ
  reading_order_issues : ℕ
  cta_scan_risk : Bool
  deriving DecidableEq, Repr

structure CTAQualityAnalysis where
  vague_cta_count : ℕ
  benefit_cta_count : ℕ
  urgency_cta_count : ℕ
  cta_strength_score : ℚ
  findings : List String
  deriving DecidableEq, Repr

structure ConversionFrictionAnalysis where
  max_form_fields : ℕ
  form_fields_over_8 : Bool
  requires_phone_and_email : Bool
  missing_progress_indicator : Bool
  trust_badge_missing_on_checkout : Bool
  conversion_friction_score : ℚ
  findings : List String
  deriving DecidableEq, Repr

structure TrustSignalAnalysis where
  testimonials_present : Bool
  social_proof_present : Bool
  security_badges_present : Bool
  about_or_contact_visible : Bool
  trust_score : ℚ
  deriving DecidableEq, Repr

structure ExperienceQualityAnalysis where
  microinteraction_score : ℚ
  cta_visibility_score : ℚ
  navigation_simplicity_score : ℚ
  findings : List String
  deriving DecidableEq, Repr

structure UXRiskRadar where
  clarity : ℚ
  conversion : ℚ
  trust : ℚ
  content : ℚ
  interaction : ℚ
  navigation : ℚ
  deriving DecidableEq, Repr

structure UXIntelligenceAnalysis where
  cognitive_load : CognitiveLoadAnalysis
  visual_hierarchy : VisualHierarchyAnalysis
  flow_analysis : FlowAnalysis
  cta_quality : CTAQualityAnalysis
  conversion_friction : ConversionFrictionAnalysis
  trust_signals : TrustSignalAnalysis
  experience_quality : ExperienceQualityAnalysis
  first_impression_score : ℚ
  ux_risk_radar : UXRiskRadar
  risk_level : String
  findings : List String
  deriving DecidableEq, Repr

/-- `toRiskLevel` from `ux-intelligence.ts`. -/
def toRiskLevel (score : ℚ) : String :=
  if score ≥ 70 then "High" else if score ≥ 45 then "Medium" else "Low"

/-- `analyzeCognitiveLoad` from `ux-intelligence.ts`. -/
def analyzeCognitiveLoad (s : UXIntelligenceSnapshot) : CognitiveLoadAnalysis :=
  let primaryConflict : Bool := decide (s.primaryCtaCountAboveFold ≥ 3)
  let overcrowdedHero : Bool :=
    decide (s.heroElementCount ≥ 14) || decide (s.heroInteractiveCount ≥ 5)
  let index : ℤ :=
    min 35 (max 0 ((s.ctaCountAboveFold : ℤ) - 1) * 10) +
    (if primaryConflict then 20 else 0) +
    min 20 (max 0 ((s.ctaColorVariantCountAboveFold : ℤ) - 2) * 8) +
    (if overcrowdedHero then 20 else 0)
  let load := clampQ (index : ℚ)
  { cta_count_above_fold := s.ctaCountAboveFold
    primary_cta_conflict := primaryConflict
    competing_color_count := s.ctaColorVariantCountAboveFold
    overcrowded_hero := overcrowdedHero
    risk := toRiskLevel load ++ " cognitive load in hero section"
    cognitive_load_index := load }

/-- `analyzeVisualHierarchy` from `ux-intelligence.ts`. -/
def analyzeVisualHierarchy (s : UXIntelligenceSnapshot) : VisualHierarchyAnalysis :=
  let colorHierarchyScore :=
    clampQ (100 - ((max 0 ((s.ctaColorVariantCountAboveFold : ℤ) - 2) : ℤ) : ℚ) * 15)
  let h1RatioPercent := clampQ (s.h1DominanceRatio * 100)
  let ctaRatioPercent := clampQ (s.ctaVisualDominanceRatio * 100)
  let score :=
    clampQ (h1RatioPercent * 0.4 + ctaRatioPercent * 0.4 + colorHierarchyScore * 0.2)
  { h1_dominance_ratio := toFixed2 s.h1DominanceRatio
    cta_visual_dominance_ratio := toFixed2 s.ctaVisualDominanceRatio
    color_hierarchy_score := colorHierarchyScore
    visual_dominance_ratio := clampQ ((h1RatioPercent + ctaRatioPercent) / 2)
    score := score }

/-- `analyzeFlow` from `ux-intelligence.ts`. -/
def analyzeFlow (s : UXIntelligenceSnapshot) : FlowAnalysis :=
  let leftBias := s.leftAlignedKeyElementsRatio
  let pattern : String :=
    if leftBias ≥ 0.7 then "f-pattern" else if leftBias ≥ 0.45 then "z-pattern" else "mixed"
  let readingFlowScore :=
    clampQ (100 - (s.flowReadingIssueCount : ℚ) * 14 + (if leftBias ≥ 0.5 then 8 else 0))
  { estimated_pattern := pattern
    reading_flow_score := readingFlowScore
    reading_order_issues := s.flowReadingIssueCount
    cta_scan_risk := decide (readingFlowScore < 60) }

/-- `analyzeCTAQuality` from `ux-intelligence.ts`. -/
def analyzeCTAQuality (s : UXIntelligenceSnapshot) : CTAQualityAnalysis :=
  let strength : ℤ := 60 +
    min 25 ((s.benefitCtaCount : ℤ) * 8) +
    min 10 ((s.urgencyCtaCount : ℤ) * 4) -
    min 35 ((s.vagueCtaCount : ℤ) * 9)
  let score := clampQ (strength : ℚ)
  let findings : List String :=
    (if s.vagueCtaCount > 0 then
      ["CTA lacks benefit framing. Consider adding outcome-driven language."] else []) ++
    (if s.benefitCtaCount = 0 then
      ["No benefit-driven CTA detected above the fold."] else []) ++
    (if s.urgencyCtaCount = 0 ∧ s.primaryCtaCountAboveFold > 0 then
      ["Primary CTA has weak urgency cues."] else [])
  { vague_cta_count := s.vagueCtaCount
    benefit_cta_count := s.benefitCtaCount
    urgency_cta_count := s.urgencyCtaCount
    cta_strength_score := score
    findings := findings }

/-- `analyzeConversionFriction` from `ux-intelligence.ts`. -/
def analyzeConversionFriction (s : UXIntelligenceSnapshot) : ConversionFrictionAnalysis :=
  let friction : ℤ := 20 +
    (if s.maxFormFieldCount > 8 then 25 else 0) +
    (if s.requiresPhoneAndEmail then 22 else 0) +
    (if s.progressIndicatorPresent then 0 else 15) +
    (if s.trustBadgePresent then 0 else 10)
  let findings : List String :=
    (if s.maxFormFieldCount > 8 then
      ["Form has more than 8 fields; likely conversion drop."] else []) ++
    (if s.requiresPhoneAndEmail then
      ["Form asks both phone and email; high perceived effort."] else []) ++
    (if ¬ s.progressIndicatorPresent ∧ s.maxFormFieldCount ≥ 6 then
      ["Multi-step style form lacks progress indicator."] else []) ++
    (if ¬ s.trustBadgePresent ∧ s.maxFormFieldCount ≥ 4 then
      ["Trust/security indicator missing near conversion path."] else [])
  { max_form_fields := s.maxFormFieldCount
    form_fields_over_8 := decide (s.maxFormFieldCount > 8)
    requires_phone_and_email := s.requiresPhoneAndEmail
    missing_progress_indicator := ¬ s.progressIndicatorPresent
    trust_badge_missing_on_checkout := ¬ s.trustBadgePresent
    conversion_friction_score := clampQ (friction : ℚ)
    findings := findings }

/-- `analyzeTrustSignals` from `ux-intelligence.ts`. -/
def analyzeTrustSignals (s : UXIntelligenceSnapshot) : TrustSignalAnalysis :=
  let trust : ℤ := 25 +
    (if s.testimonialsPresent then 25 else 0) +
    (if s.socialProofPresent then 20 else 0) +
    (if s.trustBadgePresent then 20 else 0) +
    (if s.aboutOrContactVisible then 20 else 0)
  { testimonials_present := s.testimonialsPresent
    social_proof_present := s.socialProofPresent
    security_badges_present := s.trustBadgePresent
    about_or_contact_visible := s.aboutOrContactVisible
    trust_score := clampQ (trust : ℚ) }

/-- `analyzeExperienceQuality` from `ux-intelligence.ts`. -/
def analyzeExperienceQuality (s : UXIntelligenceSnapshot) : ExperienceQualityAnalysis :=
  let microinteractionScore :=
    clampQ (45 + (s.hoverFeedbackSignals : ℚ) * 8 + (s.inputFocusSignals : ℚ) * 10)
  let ctaVisibilityScore :=
    clampQ (if s.viewportHeight > 0 then
        100 - max 0 ((s.primaryCtaMinY - s.viewportHeight) / s.viewportHeight * 70)
      else 60)
  let navigationComplexityPenalty : ℤ :=
    max 0 ((s.menuItemsCount : ℤ) - 7) * 5 +
    max 0 ((s.navMaxDepth : ℤ) - 2) * 12 +
    (if s.hasHamburger ∧ s.hasVisibleDesktopLikeNav then 10 else 0)
  let navigationSimplicityScore := clampQ ((100 - navigationComplexityPenalty : ℤ) : ℚ)
  let findings : List String :=
    (if ctaVisibilityScore < 65 then
      ["Important CTA appears too deep in scroll path."] else []) ++
    (if navigationSimplicityScore < 60 then
      ["Navigation complexity may increase cognitive overhead."] else []) ++
    (if microinteractionScore < 50 then
      ["Limited hover/focus feedback detected for interactive elements."] else [])
  { microinteraction_score := microinteractionScore
    cta_visibility_score := ctaVisibilityScore
    navigation_simplicity_score := navigationSimplicityScore
    findings := findings }

/-- `analyzeUXIntelligence` from `ux-intelligence.ts`; the two optional
`options` fields are passed as separate `Option` parameters. -/
def analyzeUXIntelligence (snapshot : UXIntelligenceSnapshot)
    (motionAnalysis : Option MotionAnalysis) (readabilityScore : Option ℚ) :
    UXIntelligenceAnalysis :=
  let cognitive := analyzeCognitiveLoad snapshot
  let hierarchy := analyzeVisualHierarchy snapshot
  let flow := analyzeFlow snapshot
  let cta := analyzeCTAQuality snapshot
  let friction := analyzeConversionFriction snapshot
  let trust := analyzeTrustSignals snapshot
  let experience := analyzeExperienceQuality snapshot
  let headlineClarity : ℚ :=
    if snapshot.headlineLength > 20 ∧ snapshot.headlineLength < 85 then 80 else 55
  let valuePropScore : ℚ := if snapshot.hasValuePropHint then 85 else 55
  let firstImpressionScore := clampQ
    (headlineClarity * 0.2 + valuePropScore * 0.2 + cta.cta_strength_score * 0.2 +
      (100 - cognitive.cognitive_load_index) * 0.2 + hierarchy.score * 0.2)
  let radar : UXRiskRadar :=
    { clarity := clampQ ((100 - cognitive.cognitive_load_index) * 0.5 + hierarchy.score * 0.5)
      conversion := clampQ ((100 - friction.conversion_friction_score) * 0.6 +
        cta.cta_strength_score * 0.4)
      trust := trust.trust_score
      content := clampQ (readabilityScore.getD 60)
      interaction := clampQ ((100 - ((motionAnalysis.map (·.risk_score)).getD 40)) * 0.5 +
        experience.microinteraction_score * 0.5)
      navigation := clampQ (flow.reading_flow_score * 0.5 +
        experience.navigation_simplicity_score * 0.5) }
  let overallRisk := clampQ
    (cognitive.cognitive_load_index * 0.2 + friction.conversion_friction_score * 0.25 +
      (100 - trust.trust_score) * 0.2 + (100 - cta.cta_strength_score) * 0.15 +
      (100 - flow.reading_flow_score) * 0.2)
  let findings := (uniqueStrings
    ([if cognitive.primary_cta_conflict then
        "Multiple primary CTAs above the fold are creating decision fatigue." else ""] ++
     [if cognitive.overcrowded_hero then
        "Hero section appears visually crowded and may reduce message clarity." else ""] ++
     cta.findings ++ friction.findings ++ experience.findings ++
     [if ¬ trust.about_or_contact_visible then
        "About/Contact visibility is weak; trust confidence may drop." else ""] ++
     [if firstImpressionScore < 65 then
        "First impression is weak in the first 5-second scan." else ""])).take 8
  { cognitive_load := cognitive
    visual_hierarchy := hierarchy
    flow_analysis := flow
    cta_quality := cta
    conversion_friction := friction
    trust_signals := trust
    experience_quality := experience
    first_impression_score := firstImpressionScore
    ux_risk_radar := radar
    risk_level := toRiskLevel overallRisk
    findings := findings }

/-! ## Claim C1: score ranges and integrality -/

theorem jsRound_nonneg {x : ℚ} (h : 0 ≤ x) : 0 ≤ jsRound x := by
  unfold jsRound
  rw [Int.le_floor]
  norm_num
  linarith

theorem jsRound_le_of_le {x : ℚ} {b : ℤ} (h : x ≤ b) : jsRound x ≤ b := by
  unfold jsRound
  rw [Int.floor_le_iff]
  linarith

/-- `Number(x.toFixed(1))` clamped to [0,100] has one decimal digit:
ten times it is an integer. -/
theorem toFixed1_mul10_den (x : ℚ) : (10 * max 0 (min 100 (toFixed1 x))).den = 1 := by
  rw [toFixed1]
  set n := jsRoundAway (x * 10) with hn
  have key : (10 : ℚ) * max 0 (min 100 ((n : ℚ) / 10)) =
      ((max 0 (min 1000 n) : ℤ) : ℚ) := by
    rw [mul_max_of_nonneg _ _ (by norm_num : (0:ℚ) ≤ 10),
      mul_min_of_nonneg _ _ (by norm_num : (0:ℚ) ≤ 10),
      mul_zero, mul_comm (10 : ℚ) ((n : ℚ) / 10), div_mul_cancel₀ _ (by norm_num : (10:ℚ) ≠ 0)]
    push_cast
    norm_num
  rw [key, Rat.den_intCast]

/-- C1 counterexample: on the snapshot main text `"Hello world."` the content
analyzer's `readability_score` is 77.9, which is not an integer (the Flesch
score is kept to one decimal by `Number(score.toFixed(1))`). -/
theorem readability_score_not_integer :
    ¬ ∃ n : ℤ, readabilityScoreOf "Hello world." = (n : ℚ) := by
  have hw : toWords "Hello world." = ["hello", "world"] := by decide
  have hs : splitSentences "Hello world." = ["Hello world."] := by decide
  have hsy1 : estimateSyllables "hello" = 2 := by decide
  have hsy2 : estimateSyllables "world" = 1 := by decide
  have hval : readabilityScoreOf "Hello world." = 779/10 := by
    rw [readabilityScoreOf, hw, hs]
    simp only [fleschScore, List.length_cons, List.length_nil, List.map_cons,
      List.map_nil, List.sum_cons, List.sum_nil, hsy1, hsy2]
    norm_num [toFixed1, jsRoundAway]
  rintro ⟨n, hn⟩
  rw [hval] at hn
  have h1 : (779 : ℚ) = n * 10 := by
    field_simp at hn
    linarith
  have h2 : (779 : ℤ) = n * 10 := by exact_mod_cast h1
  omega

/-- C1 amended: every produced score lies in [0,100]; the motion risk score,
every UX-intelligence sub-score and radar axis, and the health score are
integers, while the content analyzer's `readability_score` is kept to one
decimal place (10·score is an integer) rather than being an integer. -/
theorem pipeline_scores_in_range :
    (∀ text : String,
      0 ≤ readabilityScoreOf text ∧ readabilityScoreOf text ≤ 100 ∧
        (10 * readabilityScoreOf text).den = 1) ∧
    (∀ s : MotionDetectionSnapshot, IsIntScore (analyzeMotionSignals s).risk_score) ∧
    (∀ (s : UXIntelligenceSnapshot) (m : Option MotionAnalysis) (r : Option ℚ),
      IsIntScore (analyzeUXIntelligence s m r).cognitive_load.cognitive_load_index ∧
      IsIntScore (analyzeUXIntelligence s m r).visual_hierarchy.score ∧
      IsIntScore (analyzeUXIntelligence s m r).flow_analysis.reading_flow_score ∧
      IsIntScore (analyzeUXIntelligence s m r).cta_quality.cta_strength_score ∧
      IsIntScore (analyzeUXIntelligence s m r).conversion_friction.conversion_friction_score ∧
      IsIntScore (analyzeUXIntelligence s m r).trust_signals.trust_score ∧
      IsIntScore (analyzeUXIntelligence s m r).experience_quality.microinteraction_score ∧
      IsIntScore (analyzeUXIntelligence s m r).experience_quality.cta_visibility_score ∧
      IsIntScore (analyzeUXIntelligence s m r).experience_quality.navigation_simplicity_score ∧
      IsIntScore (analyzeUXIntelligence s m r).first_impression_score ∧
      IsIntScore (analyzeUXIntelligence s m r).ux_risk_radar.clarity ∧
      IsIntScore (analyzeUXIntelligence s m r).ux_risk_radar.conversion ∧
      IsIntScore (analyzeUXIntelligence s m r).ux_risk_radar.trust ∧
      IsIntScore (analyzeUXIntelligence s m r).ux_risk_radar.content ∧
      IsIntScore (analyzeUXIntelligence s m r).ux_risk_radar.interaction ∧
      IsIntScore (analyzeUXIntelligence s m r).ux_risk_radar.navigation) ∧
    (∀ u p a s : ℚ, IsIntScore (calculateWebsiteHealthScore u p a s)) := by
  refine ⟨fun text => ?_, fun s => clampQ_isIntScore _, fun s m r => ?_, fun u p a s => ?_⟩
  · rw [readabilityScoreOf]
    simp only [fleschScore]
    split
    · norm_num
    · exact ⟨le_max_left _ _, max_le (by norm_num) (min_le_left _ _),
        toFixed1_mul10_den _⟩
  · exact ⟨clampQ_isIntScore _, clampQ_isIntScore _, clampQ_isIntScore _,
      clampQ_isIntScore _, clampQ_isIntScore _, clampQ_isIntScore _,
      clampQ_isIntScore _, clampQ_isIntScore _, clampQ_isIntScore _,
      clampQ_isIntScore _, clampQ_isIntScore _, clampQ_isIntScore _,
      clampQ_isIntScore _, clampQ_isIntScore _, clampQ_isIntScore _,
      clampQ_isIntScore _⟩
  · simp only [calculateWebsiteHealthScore]
    refine ⟨?_, ?_, Rat.den_intCast _⟩
    · exact_mod_cast jsRound_nonneg
        (le_max_left 0 (min 100 (u * (35/100) + p * (30/100) + a * (20/100) + s * (15/100))))
    · have hle : max 0 (min 100 (u * (35/100) + p * (30/100) + a * (20/100) + s * (15/100))) ≤
          ((100 : ℤ) : ℚ) := by
        exact_mod_cast max_le (by norm_num)
          (min_le_left 100 (u * (35/100) + p * (30/100) + a * (20/100) + s * (15/100)))
      exact_mod_cast jsRound_le_of_le hle

/-! ## Review data model (`src/lib/analysis.ts`)

Enum-valued fields (`category`, `severity`, `confidence`, `sourceType`,
`priorityLabel`) are strings, exactly as the code stores them; optional
fields are `Option`s.  An optional numeric field is `Option ℚ`, where
`none` covers both an absent value and a non-finite one (`toNumber` /
`toClampedScore` treat those identically via `Number.isFinite`). -/

structure UXIssue where
  category : String
  title : String
  why : String
  evidence : String
  severity : String
  confidence : Option String
  evidenceWeight : Option ℚ
  sourceType : Option String
  impactScore : Option ℚ
  effortScore : Option ℚ
  priorityScore : Option ℚ
  priorityLabel : Option String
  fixSnippet : Option String
  deriving DecidableEq, Repr

structure AuditFinding where
  title : String
  why : String
  evidence : String
  severity : String
  confidence : Option String
  evidenceWeight : Option ℚ
  sourceType : Option String
  impactScore : Option ℚ
  effortScore : Option ℚ
  priorityScore : Option ℚ
  priorityLabel : Option String
  fixSnippet : Option String
  deriving DecidableEq, Repr

structure UXImprovement where
  before : String
  after : String
  deriving DecidableEq, Repr

structure UXSection where
  score : ℚ
  issues : List UXIssue
  top_improvements : List UXImprovement
  deriving DecidableEq, Repr

structure AuditSection where
  score : ℚ
  findings : List AuditFinding
  deriving DecidableEq, Repr

structure UXReview where
  score : ℚ
  issues : List UXIssue
  top_improvements : List UXImprovement
  ux : UXSection
  accessibility : AuditSection
  seo : AuditSection
  visual : AuditSection
  deriving DecidableEq, Repr

/-! ## Issue enrichment engine (`src/lib/audit-intelligence.ts`) -/

/-- Case-sensitive substring test (regex alternatives are matched against
already-lowercased text in this module). -/
def containsSub (s sub : String) : Bool :=
  s.toList.tails.any (fun t => sub.toList.isPrefixOf t)

def containsAny (s : String) (subs : List String) : Bool :=
  subs.any (fun sub => containsSub s sub)

def hasDigit (s : String) : Bool := s.toList.any (fun c => '0' ≤ c ∧ c ≤ '9')

/-- `<\w+` on the (lowercased) text: a `<` directly followed by a word
character. -/
def hasTagStart (s : String) : Bool :=
  s.toList.tails.any (fun t =>
    match t with
    | '<' :: c :: _ => ('a' ≤ c ∧ c ≤ 'z') ∨ ('0' ≤ c ∧ c ≤ '9') ∨ c = '_'
    | _ => false)

/-- The `severityImpact` record: `{high: 90, medium: 65, low: 40}`. -/
def severityImpact (s : String) : Option ℚ :=
  if s = "high" then some 90
  else if s = "medium" then some 65
  else if s = "low" then some 40
  else none

/-- `toNumber(value, fallback)`: a present finite number is kept, anything
else falls back. -/
def toNumber (v : Option ℚ) (fallback : ℚ) : ℚ := v.getD fallback

/-- JS `a || b` on an optional string: `none` and `""` are falsy. -/
def jsOrStr (v : Option String) (d : String) : String :=
  match v with
  | some s => if s = "" then d else s
  | none => d

/-- JS `a || b` where both sides may be `undefined`. -/
def jsOrOptStr (a b : Option String) : Option String :=
  match a with
  | some s => if s = "" then b else some s
  | none => b

/-- `inferSourceType` from `audit-intelligence.ts`. -/
def inferSourceType (evidence why : String) : String :=
  let text := jsToLower (evidence ++ " " ++ why)
  if containsSub text "#" || containsSub text "." || containsSub text "[" ||
      containsSub text "aria-" || containsSub text "role=" || hasTagStart text then
    "deterministic"
  else if containsAny text ["might", "may", "likely", "appears", "seems", "could"] then
    "heuristic"
  else "ai_inferred"

/-- `estimateEvidenceWeight` from `audit-intelligence.ts`. -/
def estimateEvidenceWeight (evidence : String) (sourceType : String) : ℚ :=
  let base : ℚ := min 70 (((jsTrim evidence).length : ℚ) * (8/10))
  let sourceBoost : ℚ :=
    if sourceType = "deterministic" then 25 else if sourceType = "heuristic" then 10 else 0
  let numericBoost : ℚ := if hasDigit evidence then 8 else 0
  clampQ (base + sourceBoost + numericBoost)

/-- `inferEffortScore` from `audit-intelligence.ts`. -/
def inferEffortScore (title why : String) : ℚ :=
  let text := jsToLower (title ++ " " ++ why)
  if containsAny text ["rename", "update copy", "alt text", "label", "contrast",
      "heading", "h1", "aria-label", "button text", "link text"] then 25
  else if containsAny text ["spacing", "alignment", "responsive", "layout",
      "navigation", "hierarchy", "form flow"] then 50
  else if containsAny text ["re-architect", "rewrite", "major redesign",
      "information architecture", "checkout flow", "auth flow"] then 80
  else 45

/-- `inferFixSnippet` from `audit-intelligence.ts`. -/
def inferFixSnippet (category title : String) : Option String :=
  let text := jsToLower (category ++ " " ++ title)
  if containsAny text ["contrast", "button"] then
    some ".button-primary \x7b\n  background-color: #0052cc;\n  color: #ffffff;\n\x7d"
  else if containsAny text ["alt", "image", "hero"] then
    some "<img src=\"hero.jpg\" alt=\"Online booking dashboard preview\" />"
  else if containsAny text ["h1", "heading", "title"] then
    some "<h1>Book appointments faster with real-time availability</h1>"
  else if containsAny text ["form", "label", "input"] then
    some "<label for=\"email\">Work email</label>\n<input id=\"email\" name=\"email\" type=\"email\" required />"
  else none

/-- `inferPriorityLabel` from `audit-intelligence.ts`. -/
def inferPriorityLabel (priorityScore impact effort : ℚ) : String :=
  if impact ≥ 65 ∧ effort ≤ 35 then "quick_win"
  else if priorityScore ≥ 70 then "critical"
  else if priorityScore ≥ 55 then "high"
  else if priorityScore ≥ 40 then "medium"
  else "low"

/-- The inferred confidence of `enrichFinding` when none was supplied. -/
def inferConfidence (sourceType : String) (evidenceWeight : ℚ) : String :=
  if sourceType = "deterministic" ∧ evidenceWeight ≥ 75 then "high"
  else if evidenceWeight < 45 ∨ sourceType = "ai_inferred" then "low"
  else "medium"

/-- `enrichFinding` from `audit-intelligence.ts`, at type `UXIssue` (the
source function is generic over `UXIssue | AuditFinding`). -/
def enrichIssue (item : UXIssue) : UXIssue :=
  let sourceType := jsOrStr item.sourceType (inferSourceType item.evidence item.why)
  let evidenceWeight :=
    clampQ (toNumber item.evidenceWeight (estimateEvidenceWeight item.evidence sourceType))
  let confidence := jsOrStr item.confidence (inferConfidence sourceType evidenceWeight)
  let impactScore := clampQ (toNumber item.impactScore ((severityImpact item.severity).getD 55))
  let effortScore := clampQ (toNumber item.effortScore (inferEffortScore item.title item.why))
  let priorityScore :=
    clampQ (toNumber item.priorityScore (impactScore * (110 - effortScore) / 100))
  let priorityLabel :=
    jsOrStr item.priorityLabel (inferPriorityLabel priorityScore impactScore effortScore)
  { item with
    confidence := some confidence
    evidenceWeight := some evidenceWeight
    sourceType := some sourceType
    impactScore := some impactScore
    effortScore := some effortScore
    priorityScore := some priorityScore
    priorityLabel := some priorityLabel
    fixSnippet := jsOrOptStr item.fixSnippet (inferFixSnippet item.category item.title) }

/-- `enrichFinding` from `audit-intelligence.ts`, at type `AuditFinding`
(`(item as UXIssue).category || ""` is `""` for a section finding). -/
def enrichFinding (item : AuditFinding) : AuditFinding :=
  let sourceType := jsOrStr item.sourceType (inferSourceType item.evidence item.why)
  let evidenceWeight :=
    clampQ (toNumber item.evidenceWeight (estimateEvidenceWeight item.evidence sourceType))
  let confidence := jsOrStr item.confidence (inferConfidence sourceType evidenceWeight)
  let impactScore := clampQ (toNumber item.impactScore ((severityImpact item.severity).getD 55))
  let effortScore := clampQ (toNumber item.effortScore (inferEffortScore item.title item.why))
  let priorityScore :=
    clampQ (toNumber item.priorityScore (impactScore * (110 - effortScore) / 100))
  let priorityLabel :=
    jsOrStr item.priorityLabel (inferPriorityLabel priorityScore impactScore effortScore)
  { item with
    confidence := some confidence
    evidenceWeight := some evidenceWeight
    sourceType := some sourceType
    impactScore := some impactScore
    effortScore := some effortScore
    priorityScore := some priorityScore
    priorityLabel := some priorityLabel
    fixSnippet := jsOrOptStr item.fixSnippet (inferFixSnippet "" item.title) }

/-- `enrichReviewIntelligence` from `audit-intelligence.ts`. -/
def enrichReviewIntelligence (review : UXReview) : UXReview :=
  { review with
    issues := review.issues.map enrichIssue
    ux := { review.ux with issues := review.ux.issues.map enrichIssue }
    accessibility :=
      { review.accessibility with findings := review.accessibility.findings.map enrichFinding }
    seo := { review.seo with findings := review.seo.findings.map enrichFinding }
    visual := { review.visual with findings := review.visual.findings.map enrichFinding } }

/-! ## Claim C5: impact and priority enrichment -/

/-- C5: for every issue and every section finding, a missing `impactScore`
is derived from severity (high→90, medium→65, low→40); a missing
`priorityScore` becomes `clamp(impact × (110 − effort) / 100)` over the
enriched impact and effort; a supplied `priorityScore` is kept, clamped. -/
theorem enrichment_impact_and_priority (i : UXIssue) (g : AuditFinding) :
    (i.impactScore = none ∧ i.severity = "high" →
      (enrichIssue i).impactScore = some 90) ∧
    (i.impactScore = none ∧ i.severity = "medium" →
      (enrichIssue i).impactScore = some 65) ∧
    (i.impactScore = none ∧ i.severity = "low" →
      (enrichIssue i).impactScore = some 40) ∧
    (i.priorityScore = none →
      ∃ imp eff, (enrichIssue i).impactScore = some imp ∧
        (enrichIssue i).effortScore = some eff ∧
        (enrichIssue i).priorityScore = some (clampQ (imp * (110 - eff) / 100))) ∧
    (∀ p, i.priorityScore = some p →
      (enrichIssue i).priorityScore = some (clampQ p)) ∧
    (g.impactScore = none ∧ g.severity = "high" →
      (enrichFinding g).impactScore = some 90) ∧
    (g.impactScore = none ∧ g.severity = "medium" →
      (enrichFinding g).impactScore = some 65) ∧
    (g.impactScore = none ∧ g.severity = "low" →
      (enrichFinding g).impactScore = some 40) ∧
    (g.priorityScore = none →
      ∃ imp eff, (enrichFinding g).impactScore = some imp ∧
        (enrichFinding g).effortScore = some eff ∧
        (enrichFinding g).priorityScore = some (clampQ (imp * (110 - eff) / 100))) ∧
    (∀ p, g.priorityScore = some p →
      (enrichFinding g).priorityScore = some (clampQ p)) := by
  have h90 : clampQ 90 = 90 := by norm_num [clampQ, jsRound]
  have h65 : clampQ 65 = 65 := by norm_num [clampQ, jsRound]
  have h40 : clampQ 40 = 40 := by norm_num [clampQ, jsRound]
  refine ⟨?_, ?_, ?_, ?_, ?_, ?_, ?_, ?_, ?_, ?_⟩
  · rintro ⟨h1, h2⟩
    simp [enrichIssue, toNumber, severityImpact, h1, h2, h90]
  · rintro ⟨h1, h2⟩
    simp [enrichIssue, toNumber, severityImpact, h1, h2, h65]
  · rintro ⟨h1, h2⟩
    simp [enrichIssue, toNumber, severityImpact, h1, h2, h40]
  · intro h
    refine ⟨_, _, rfl, rfl, ?_⟩
    simp [enrichIssue, toNumber, h]
  · intro p hp
    simp [enrichIssue, toNumber, hp]
  · rintro ⟨h1, h2⟩
    simp [enrichFinding, toNumber, severityImpact, h1, h2, h90]
  · rintro ⟨h1, h2⟩
    simp [enrichFinding, toNumber, severityImpact, h1, h2, h65]
  · rintro ⟨h1, h2⟩
    simp [enrichFinding, toNumber, severityImpact, h1, h2, h40]
  · intro h
    refine ⟨_, _, rfl, rfl, ?_⟩
    simp [enrichFinding, toNumber, h]
  · intro p hp
    simp [enrichFinding, toNumber, hp]

/-- Concrete issue for the C5 witness: high severity, nothing supplied. -/
def c5Issue : UXIssue :=
  { category := "clarity", title := "Vague call to action", why := "Users hesitate."
    evidence := "Sign up", severity := "high", confidence := none
    evidenceWeight := none, sourceType := none, impactScore := none
    effortScore := none, priorityScore := none, priorityLabel := none
    fixSnippet := none }

/-- Concrete finding for the C5 witness: explicit priorityScore 120. -/
def c5Finding : AuditFinding :=
  { title := "Missing alt text", why := "Screen readers get nothing."
    evidence := "3 images", severity := "medium", confidence := none
    evidenceWeight := none, sourceType := none, impactScore := none
    effortScore := none, priorityScore := some 120, priorityLabel := none
    fixSnippet := none }

/-- C5 witness: the theorem applied at concrete inputs. -/
theorem enrichment_impact_and_priority_witness :
    (enrichIssue c5Issue).impactScore = some 90 ∧
    (∃ imp eff, (enrichIssue c5Issue).impactScore = some imp ∧
      (enrichIssue c5Issue).effortScore = some eff ∧
      (enrichIssue c5Issue).priorityScore = some (clampQ (imp * (110 - eff) / 100))) ∧
    (enrichFinding c5Finding).impactScore = some 65 ∧
    (enrichFinding c5Finding).priorityScore = some (clampQ 120) :=
  ⟨(enrichment_impact_and_priority c5Issue c5Finding).1 ⟨rfl, rfl⟩,
   (enrichment_impact_and_priority c5Issue c5Finding).2.2.2.1 rfl,
   (enrichment_impact_and_priority c5Issue c5Finding).2.2.2.2.2.2.1 ⟨rfl, rfl⟩,
   (enrichment_impact_and_priority c5Issue c5Finding).2.2.2.2.2.2.2.2.2 120 rfl⟩

/-! ## Claim C10: enrichment is frame-preserving -/

/-- The fields of an issue that enrichment must not touch. -/
def issueCore (i : UXIssue) : String × String × String × String × String :=
  (i.category, i.title, i.why, i.evidence, i.severity)

/-- The fields of a section finding that enrichment must not touch. -/
def findingCore (f : AuditFinding) : String × String × String × String :=
  (f.title, f.why, f.evidence, f.severity)

/-- C10: `enrichReviewIntelligence` preserves the overall score, all section
scores, both improvement lists, and — for every issues/findings list — the
length, the order, and the category/title/why/evidence/severity of each
entry (equality of the `map`s over those fields captures all three). -/
theorem enrichment_frame_preservation (r : UXReview) :
    (enrichReviewIntelligence r).score = r.score ∧
    (enrichReviewIntelligence r).ux.score = r.ux.score ∧
    (enrichReviewIntelligence r).accessibility.score = r.accessibility.score ∧
    (enrichReviewIntelligence r).seo.score = r.seo.score ∧
    (enrichReviewIntelligence r).visual.score = r.visual.score ∧
    (enrichReviewIntelligence r).top_improvements = r.top_improvements ∧
    (enrichReviewIntelligence r).ux.top_improvements = r.ux.top_improvements ∧
    (enrichReviewIntelligence r).issues.map issueCore = r.issues.map issueCore ∧
    (enrichReviewIntelligence r).ux.issues.map issueCore = r.ux.issues.map issueCore ∧
    (enrichReviewIntelligence r).accessibility.findings.map findingCore =
      r.accessibility.findings.map findingCore ∧
    (enrichReviewIntelligence r).seo.findings.map findingCore =
      r.seo.findings.map findingCore ∧
    (enrichReviewIntelligence r).visual.findings.map findingCore =
      r.visual.findings.map findingCore := by
  have hIssue : ∀ i : UXIssue, issueCore (enrichIssue i) = issueCore i := fun i => rfl
  have hFinding : ∀ f : AuditFinding, findingCore (enrichFinding f) = findingCore f :=
    fun f => rfl
  refine ⟨rfl, rfl, rfl, rfl, rfl, rfl, rfl, ?_, ?_, ?_, ?_, ?_⟩ <;>
    · show (List.map _ _).map _ = _
      rw [List.map_map]
      exact List.map_congr_left (fun a _ => by
        first
        | exact hIssue a
        | exact hFinding a)

/-! ## Fallback review generator (`src/lib/analysis.ts`) -/

/-- Case-insensitive search for `key ++ ":"` at the head of `cs`; on a match
returns what follows the colon. -/
def keyColonPrefix : List Char → List Char → Option (List Char)
  | [], ':' :: rest => some rest
  | k :: ks, c :: cs => if charToLower c = charToLower k then keyColonPrefix ks cs else none
  | _, _ => none

/-- Leftmost case-insensitive match of `key ++ ":"`, as
`content.match(new RegExp(`${key}:...`, "i"))` finds it. -/
def findKeyMatch (key : List Char) : List Char → Option (List Char)
  | [] => none
  | c :: cs =>
    match keyColonPrefix key (c :: cs) with
    | some rest => some rest
    | none => findKeyMatch key cs

/-- Line terminators, which `.` in a JS regex does not match. -/
def isLineTerminator (c : Char) : Bool :=
  c = '\n' ∨ c = '\r' ∨ c.val = 0x2028 ∨ c.val = 0x2029

/-- `extractSection`: first match of `` `${key}:\s*(.*)` `` (case-insensitive),
trimmed, else `""`. -/
def extractSection (content key : String) : String :=
  match findKeyMatch key.toList content.toList with
  | some rest =>
    jsTrim (String.mk ((rest.dropWhile jsIsSpace).takeWhile (fun c => ¬ isLineTerminator c)))
  | none => ""

/-- `extractEvidence`: the section value truncated to 140 characters, or a
fixed fallback sentence when missing/`"None"`. -/
def extractEvidence (content key : String) : String :=
  let value := extractSection content key
  if value = "" ∨ value = "None" then "No clear evidence found in extracted text."
  else String.mk (value.toList.take 140)

/-- `value.split("||")` at the character-list level (leftmost,
non-overlapping separators). -/
def splitOnPipes : List Char → List Char → List (List Char)
  | [], acc => [acc.reverse]
  | '|' :: '|' :: rest, acc => acc.reverse :: splitOnPipes rest []
  | c :: rest, acc => splitOnPipes rest (c :: acc)

/-- `splitPipeList` from `analysis.ts`. -/
def splitPipeList (value : String) : List String :=
  if value = "" ∨ value = "None" then []
  else ((splitOnPipes value.toList []).map (fun l => jsTrim (String.mk l))).filter
    (fun s => s ≠ "")

/-- `calculateFallbackScore` from `analysis.ts` (the `score +=` mutation
sequence written as a fold of its summands). -/
def calculateFallbackScore (content : String) : ℚ :=
  let title := extractSection content "TITLE"
  let headings := splitPipeList (extractSection content "HEADINGS")
  let buttons := splitPipeList (extractSection content "BUTTONS")
  let forms := splitPipeList (extractSection content "FORMS")
  let mainText := extractSection content "MAIN_TEXT"
  let score : ℤ := 50
  let score := score + (if title ≠ "" ∧ title ≠ "None" then 8 else -10)
  let score := score +
    (if headings.length = 0 then -12
     else if headings.length ≤ 2 then 2
     else if headings.length ≤ 8 then 8
     else 4)
  let score := score +
    (if buttons.length = 0 then -8
     else if buttons.length ≤ 2 then 2
     else if buttons.length ≤ 8 then 6
     else 3)
  let score := score +
    (if 1 ≤ forms.length ∧ forms.length ≤ 3 then 6
     else if forms.length > 3 then 3
     else 0)
  let score := score +
    (if mainText.length < 200 then -10
     else if mainText.length ≤ 1200 then 8
     else 4)
  let hasTrustCue := containsAny (jsToLower mainText)
    ["testimonial", "review", "secure", "privacy", "trusted", "guarantee", "contact", "about"]
  let score := score + (if hasTrustCue then 6 else -4)
  clampQ ((score : ℤ) : ℚ)

/-- A fixed-template fallback issue (enrichment fields absent, as in the
object literals of `createFallbackReview`). -/
def fallbackIssue (category title why evidence severity : String) : UXIssue :=
  { category := category, title := title, why := why, evidence := evidence
    severity := severity, confidence := none, evidenceWeight := none
    sourceType := none, impactScore := none, effortScore := none
    priorityScore := none, priorityLabel := none, fixSnippet := none }

/-- `createFallbackReview` from `analysis.ts`. -/
def createFallbackReview (content : String) : UXReview :=
  let title := extractEvidence content "TITLE"
  let headings := extractEvidence content "HEADINGS"
  let buttons := extractEvidence content "BUTTONS"
  let forms := extractEvidence content "FORMS"
  let mainText := extractEvidence content "MAIN_TEXT"
  let score := calculateFallbackScore content
  let issues : List UXIssue :=
    [fallbackIssue "clarity" "Value proposition could be clearer above the fold"
        "Users may not immediately understand what the product does." title "high",
     fallbackIssue "layout" "Content hierarchy is hard to scan"
        "Heading structure may not guide users through key information." headings "medium",
     fallbackIssue "navigation" "Primary action emphasis is unclear"
        "Multiple similar actions can increase decision friction." buttons "medium",
     fallbackIssue "accessibility" "Form fields may lack clear context"
        "Ambiguous labels can reduce completion and accessibility." forms "high",
     fallbackIssue "trust" "Trust indicators are not prominent"
        "Users look for signals like proof, policy clarity, and contact confidence." mainText "medium",
     fallbackIssue "clarity" "Copy appears dense in key sections"
        "Long paragraphs can reduce comprehension and increase bounce." mainText "low"]
  let top_improvements : List UXImprovement :=
    [{ before := "Generic headline and dense intro text"
       after := "Use a single-sentence value proposition with one supporting line." },
     { before := "Multiple competing actions"
       after := "Prioritize one primary CTA and de-emphasize secondary actions." },
     { before := "Forms with unclear context"
       after := "Add explicit labels, helper text, and clearer field intent." }]
  let findings : List AuditFinding := issues.map (fun issue =>
    { title := issue.title, why := issue.why, evidence := issue.evidence
      severity := issue.severity, confidence := none, evidenceWeight := none
      sourceType := none, impactScore := none, effortScore := none
      priorityScore := none, priorityLabel := none, fixSnippet := none })
  { score := score
    issues := issues
    top_improvements := top_improvements
    ux := { score := score, issues := issues, top_improvements := top_improvements }
    accessibility := { score := clampQ (score - 8), findings := findings }
    seo := { score := clampQ (score - 6), findings := findings }
    visual := { score := clampQ (score - 5), findings := findings } }

theorem extractEvidence_length_le (content key : String) :
    (extractEvidence content key).length ≤ 140 := by
  rw [extractEvidence]
  split
  · decide
  · show (String.mk _).length ≤ 140
    show (List.take 140 _).length ≤ 140
    exact List.length_take_le 140 _

/-- C4: for every input payload the fallback review has exactly 6 template
issues with categories clarity/layout/navigation/accessibility/trust/clarity
in that order, every evidence string at most 140 characters, exactly 3
template improvements, and all four sections populated with the same shape
as a sanitized review (6 findings per section, clamped integer scores). -/
theorem fallback_review_shape (content : String) :
    (createFallbackReview content).issues.length = 6 ∧
    (createFallbackReview content).issues.map (fun i => i.category) =
      ["clarity", "layout", "navigation", "accessibility", "trust", "clarity"] ∧
    (∀ i ∈ (createFallbackReview content).issues, i.evidence.length ≤ 140) ∧
    (∀ f ∈ (createFallbackReview content).accessibility.findings, f.evidence.length ≤ 140) ∧
    (createFallbackReview content).top_improvements.length = 3 ∧
    (createFallbackReview content).ux.issues = (createFallbackReview content).issues ∧
    (createFallbackReview content).ux.top_improvements =
      (createFallbackReview content).top_improvements ∧
    (createFallbackReview content).ux.score = (createFallbackReview content).score ∧
    (createFallbackReview content).accessibility.findings.length = 6 ∧
    (createFallbackReview content).seo.findings.length = 6 ∧
    (createFallbackReview content).visual.findings.length = 6 ∧
    (createFallbackReview content).seo.findings =
      (createFallbackReview content).accessibility.findings ∧
    (createFallbackReview content).visual.findings =
      (createFallbackReview content).accessibility.findings ∧
    IsIntScore (createFallbackReview content).score ∧
    IsIntScore (createFallbackReview content).accessibility.score ∧
    IsIntScore (createFallbackReview content).seo.score ∧
    IsIntScore (createFallbackReview content).visual.score := by
  refine ⟨rfl, rfl, ?_, ?_, rfl, rfl, rfl, rfl, rfl, rfl, rfl, rfl, rfl,
    clampQ_isIntScore _, clampQ_isIntScore _, clampQ_isIntScore _, clampQ_isIntScore _⟩
  · intro i hi
    simp only [createFallbackReview, fallbackIssue, List.mem_cons,
      List.not_mem_nil, or_false] at hi
    rcases hi with h | h | h | h | h | h <;>
      · subst h
        exact extractEvidence_length_le _ _
  · intro f hf
    simp only [createFallbackReview, fallbackIssue, List.map_cons, List.map_nil,
      List.mem_cons, List.not_mem_nil, or_false] at hf
    rcases hf with h | h | h | h | h | h <;>
      · subst h
        exact extractEvidence_length_le _ _

/-! ## Audit diff engine (`src/lib/audit-intelligence.ts`) -/

structure PerformanceMetric where
  id : String
  title : String
  description : String
  score : ℚ
  displayValue : String
  deriving DecidableEq, Repr

structure PerformanceData where
  id : String
  title : String
  score : ℚ
  metrics : List PerformanceMetric
  deriving DecidableEq, Repr

structure PerformanceReport where
  performance : PerformanceData
  accessibility : PerformanceData
  bestPractices : PerformanceData
  seo : PerformanceData
  overallPerformanceScore : ℚ
  timestamp : ℚ
  deriving DecidableEq, Repr

structure MetricHighlight where
  metric : String
  before : String
  after : String
  status : String
  deriving DecidableEq, Repr

structure AuditDiff where
  previousCreatedAt : Option String
  currentCreatedAt : Option String
  scoreDelta : ℚ
  healthDelta : Option ℚ
  accessibilityDelta : ℚ
  seoDelta : ℚ
  visualDelta : ℚ
  previousIssueCount : ℕ
  currentIssueCount : ℕ
  newIssues : List String
  resolvedIssues : List String
  metricHighlights : List MetricHighlight
  deriving DecidableEq, Repr

mutual

/-- Whitespace-run collapse of `replace(/\s+/g, " ")`. -/
def collapseSpaces : List Char → List Char
  | [] => []
  | c :: cs =>
    if jsIsSpace c then ' ' :: collapseSpacesSkip cs else c :: collapseSpaces cs

/-- Consumes the rest of a whitespace run for `collapseSpaces`. -/
def collapseSpacesSkip : List Char → List Char
  | [] => []
  | c :: cs => if jsIsSpace c then collapseSpacesSkip cs else c :: collapseSpaces cs

end

/-- `normalizeTitle` from `audit-intelligence.ts`: lowercase, collapse
whitespace, trim. -/
def normalizeTitle (value : String) : String :=
  jsTrim (String.mk (collapseSpaces (jsToLower value).toList))

/-- The issue identity key `` `${issue.category}|${normalizeTitle(issue.title)}` ``. -/
def issueKey (issue : UXIssue) : String :=
  issue.category ++ "|" ++ normalizeTitle issue.title

def digitsToNat (ds : List Char) : ℕ :=
  ds.foldl (fun acc c => acc * 10 + (c.toNat - '0'.toNat)) 0

def isDigitChar (c : Char) : Bool := '0' ≤ c ∧ c ≤ '9'

/-- The first match of `/(\d+(?:\.\d+)?)/`: an integer part, with a
fractional part only when a dot is directly followed by a digit. -/
def firstNumberMatch : List Char → Option ℚ
  | [] => none
  | c :: cs =>
    if isDigitChar c then
      let intDigits := c :: cs.takeWhile isDigitChar
      let rest := cs.dropWhile isDigitChar
      match rest with
      | '.' :: r2 =>
        let fracDigits := r2.takeWhile isDigitChar
        if fracDigits = [] then some (digitsToNat intDigits)
        else some ((digitsToNat intDigits : ℚ) +
          (digitsToNat fracDigits : ℚ) / (10 : ℚ) ^ fracDigits.length)
      | _ => some (digitsToNat intDigits)
    else firstNumberMatch cs

/-- `parseTimeToSeconds` from `audit-intelligence.ts`. -/
def parseTimeToSeconds (value : String) : Option ℚ :=
  if value = "" then none
  else
    let normalized := jsTrim (jsToLower value)
    match firstNumberMatch normalized.toList with
    | none => none
    | some amount =>
      if containsSub normalized "ms" then some (amount / 1000)
      else if containsSub normalized "s" then some amount
      else some amount

/-- `extractMetric` from `audit-intelligence.ts` (an empty `displayValue`
is falsy and yields `null`). -/
def extractMetric (report : Option PerformanceReport) (metricId : String) : Option String :=
  match report with
  | none => none
  | some r =>
    if r.performance.metrics = [] then none
    else
      match r.performance.metrics.find? (fun m => m.id = metricId) with
      | none => none
      | some m => if m.displayValue = "" then none else some m.displayValue

structure AuditDiffParams where
  previousReview : Option UXReview
  currentReview : UXReview
  previousScore : Option ℚ
  currentScore : ℚ
  previousHealthScore : Option ℚ
  currentHealthScore : Option ℚ
  previousPerformance : Option PerformanceReport
  currentPerformance : Option PerformanceReport
  previousCreatedAt : Option String
  currentCreatedAt : Option String

/-- The three metric id/label pairs compared by the diff engine. -/
def diffMetricIds : List (String × String) :=
  [("largest-contentful-paint", "LCP"), ("first-contentful-paint", "FCP"),
   ("cumulative-layout-shift", "CLS")]

/-- `buildAuditDiff` from `audit-intelligence.ts`. -/
def buildAuditDiff (params : AuditDiffParams) : Option AuditDiff :=
  match params.previousReview, params.previousScore with
  | some previousReview, some previousScore =>
    let previousIssues := previousReview.issues
    let currentIssues := params.currentReview.issues
    let previousSet := previousIssues.map issueKey
    let currentSet := currentIssues.map issueKey
    let newIssues :=
      ((currentIssues.filter (fun issue => ¬ previousSet.contains (issueKey issue))).map
        (fun issue => issue.title)).take 8
    let resolvedIssues :=
      ((previousIssues.filter (fun issue => ¬ currentSet.contains (issueKey issue))).map
        (fun issue => issue.title)).take 8
    let metricHighlights := diffMetricIds.filterMap (fun p =>
      match extractMetric params.previousPerformance p.1,
          extractMetric params.currentPerformance p.1 with
      | some before, some after =>
        match parseTimeToSeconds before, parseTimeToSeconds after with
        | some beforeNumber, some afterNumber =>
          let tolerance : ℚ := if p.1 = "cumulative-layout-shift" then 3/100 else 15/100
          some { metric := p.2, before := before, after := after
                 status :=
                   if afterNumber < beforeNumber - tolerance then "improved"
                   else if afterNumber > beforeNumber + tolerance then "regressed"
                   else "stable" }
        | _, _ => some { metric := p.2, before := before, after := after, status := "stable" }
      | _, _ => none)
    some
      { previousCreatedAt := params.previousCreatedAt
        currentCreatedAt := params.currentCreatedAt
        scoreDelta := params.currentScore - previousScore
        healthDelta :=
          match params.previousHealthScore, params.currentHealthScore with
          | some ph, some ch => some (ch - ph)
          | _, _ => none
        accessibilityDelta :=
          params.currentReview.accessibility.score - previousReview.accessibility.score
        seoDelta := params.currentReview.seo.score - previousReview.seo.score
        visualDelta := params.currentReview.visual.score - previousReview.visual.score
        previousIssueCount := previousIssues.length
        currentIssueCount := currentIssues.length
        newIssues := newIssues
        resolvedIssues := resolvedIssues
        metricHighlights := metricHighlights }
  | _, _ => none

/-- C8: diffing a review against itself (equal score/health/performance on
both sides) yields zero deltas, a zero health delta exactly when both health
scores are given, and empty new/resolved issue lists. -/
theorem audit_diff_self (A : UXReview) (s : ℚ) (h : Option ℚ)
    (p : Option PerformanceReport) (d1 d2 : Option String) :
    ∃ diff, buildAuditDiff
        { previousReview := some A, currentReview := A
          previousScore := some s, currentScore := s
          previousHealthScore := h, currentHealthScore := h
          previousPerformance := p, currentPerformance := p
          previousCreatedAt := d1, currentCreatedAt := d2 } = some diff ∧
      diff.scoreDelta = 0 ∧
      diff.accessibilityDelta = 0 ∧
      diff.seoDelta = 0 ∧
      diff.visualDelta = 0 ∧
      (∀ hh, h = some hh → diff.healthDelta = some 0) ∧
      diff.newIssues = [] ∧
      diff.resolvedIssues = [] := by
  refine ⟨_, rfl, by simp, by simp, by simp, by simp, ?_, ?_, ?_⟩
  · rintro hh rfl
    simp
  · show (List.map _ (A.issues.filter _)).take 8 = []
    have : A.issues.filter (fun issue => ¬ (A.issues.map issueKey).contains (issueKey issue)) = [] := by
      rw [List.filter_eq_nil_iff]
      intro a ha
      simp only [decide_not, Bool.not_eq_true', decide_eq_false_iff_not, Decidable.not_not]
      exact List.elem_eq_true_of_mem (List.mem_map_of_mem issueKey ha)
    rw [this]
    rfl
  · show (List.map _ (A.issues.filter _)).take 8 = []
    have : A.issues.filter (fun issue => ¬ (A.issues.map issueKey).contains (issueKey issue)) = [] := by
      rw [List.filter_eq_nil_iff]
      intro a ha
      simp only [decide_not, Bool.not_eq_true', decide_eq_false_iff_not, Decidable.not_not]
      exact List.elem_eq_true_of_mem (List.mem_map_of_mem issueKey ha)
    rw [this]
    rfl

/-- Concrete review for the C8 witness. -/
def c8Review : UXReview :=
  { score := 80
    issues := [c5Issue]
    top_improvements := [{ before := "b", after := "a" }]
    ux := { score := 80, issues := [c5Issue], top_improvements := [] }
    accessibility := { score := 72, findings := [] }
    seo := { score := 74, findings := [] }
    visual := { score := 75, findings := [] } }

/-- C8 witness: the theorem applied at a concrete review with health scores
present on both sides. -/
theorem audit_diff_self_witness :
    ∃ diff, buildAuditDiff
        { previousReview := some c8Review, currentReview := c8Review
          previousScore := some (80 : ℚ), currentScore := (80 : ℚ)
          previousHealthScore := some (70 : ℚ), currentHealthScore := some (70 : ℚ)
          previousPerformance := none, currentPerformance := none
          previousCreatedAt := none, currentCreatedAt := none } = some diff ∧
      diff.scoreDelta = 0 ∧ diff.healthDelta = some 0 ∧
      diff.newIssues = [] ∧ diff.resolvedIssues = [] := by
  obtain ⟨diff, hd, h1, _, _, _, h5, h6, h7⟩ :=
    audit_diff_self c8Review 80 (some 70) none none none
  exact ⟨diff, hd, h1, h5 70 rfl, h6, h7⟩

/-! ## Score-drop alert decision (`src/lib/review-service.ts`, `src/lib/alerts.ts`) -/

/-- The fields of the previously stored review that `analyzeAndSave` reads:
`{ score, websiteHealthScore }` (the health score column is nullable). -/
structure PreviousReviewRecord where
  score : ℚ
  websiteHealthScore : Option ℚ
  deriving DecidableEq, Repr

/-- The score-drop event payload `AlertData` from `alerts.ts` (the
`timestamp` field, a wall-clock `Date`, is not modelled). -/
structure AlertData where
  url : String
  oldScore : Option ℚ
  newScore : ℚ
  oldHealthScore : Option ℚ
  newHealthScore : Option ℚ
  deriving DecidableEq, Repr

/-- The score-drop decision inlined in `analyzeAndSave`
(`review-service.ts` lines 203-217): with a previous review present,
`scoreDrop = prev.score - newScore` and
`healthScoreDrop = prev.websiteHealthScore && prev.websiteHealthScore - health`
(JS `&&`: `null` and `0` short-circuit as falsy); the alert fires when
`scoreDrop >= 10 || (healthScoreDrop && healthScoreDrop >= 10)`, carrying
`{url, oldScore, newScore, oldHealthScore ?? undefined, newHealthScore}`. -/
def scoreDropEvent (previousReview : Option PreviousReviewRecord) (url : String)
    (newScore websiteHealthScore : ℚ) : Option AlertData :=
  match previousReview with
  | none => none
  | some prev =>
    let scoreDrop := prev.score - newScore
    let healthScoreDrop : Option ℚ :=
      match prev.websiteHealthScore with
      | none => none
      | some h => if h = 0 then some 0 else some (h - websiteHealthScore)
    let healthTruthy : Bool :=
      match healthScoreDrop with
      | none => false
      | some v => v ≠ 0
    if scoreDrop ≥ 10 ∨ (healthTruthy ∧ healthScoreDrop.getD 0 ≥ 10) then
      some { url := url, oldScore := some prev.score, newScore := newScore
             oldHealthScore := prev.websiteHealthScore
             newHealthScore := some websiteHealthScore }
    else none

/-- C9: with two consecutive audits of the same URL, a score-drop event is
emitted to the alerting collaborator exactly when the overall score drop or
the health score drop (when a previous health score exists) is at least 10;
when it fires it carries `{url, oldScore, newScore, oldHealthScore?,
newHealthScore}`. -/
theorem score_drop_alert_threshold (url : String) (prev : PreviousReviewRecord)
    (newScore newHealth : ℚ) (hH : 0 ≤ newHealth) :
    ((scoreDropEvent (some prev) url newScore newHealth).isSome ↔
      (prev.score - newScore ≥ 10 ∨
        ∃ h, prev.websiteHealthScore = some h ∧ h - newHealth ≥ 10)) ∧
    (∀ d, scoreDropEvent (some prev) url newScore newHealth = some d →
      d.url = url ∧ d.oldScore = some prev.score ∧ d.newScore = newScore ∧
        d.oldHealthScore = prev.websiteHealthScore ∧ d.newHealthScore = some newHealth) := by
  constructor
  · have isSome_ite : ∀ (c : Prop) [Decidable c] (x : AlertData),
        (if c then some x else none).isSome ↔ c := by
      intro c _ x
      split <;> simp_all
    rcases hw : prev.websiteHealthScore with _ | h
    · simp only [scoreDropEvent, hw]
      rw [isSome_ite]
      constructor
      · rintro (hs | ⟨htr, _⟩)
        · exact Or.inl hs
        · simp at htr
      · rintro (hs | ⟨hh, hhp, _⟩)
        · exact Or.inl hs
        · cases hhp
    · by_cases h0 : h = 0
      · subst h0
        simp only [scoreDropEvent, hw, if_pos rfl]
        rw [isSome_ite]
        constructor
        · rintro (hs | ⟨htr, _⟩)
          · exact Or.inl hs
          · simp at htr
        · rintro (hs | ⟨hh, hhp, hd⟩)
          · exact Or.inl hs
          · injection hhp with hhp
            subst hhp
            linarith
      · simp only [scoreDropEvent, hw, if_neg h0]
        rw [isSome_ite]
        constructor
        · rintro (hs | ⟨_, hge⟩)
          · exact Or.inl hs
          · exact Or.inr ⟨h, rfl, by simpa using hge⟩
        · rintro (hs | ⟨hh, hhp, hd⟩)
          · exact Or.inl hs
          · injection hhp with hhp
            subst hhp
            refine Or.inr ⟨?_, by simpa using hd⟩
            simp only [ne_eq, decide_eq_true_eq]
            linarith
  · intro d hd
    rw [scoreDropEvent] at hd
    split at hd
    · injection hd with hd
      subst hd
      exact ⟨rfl, rfl, rfl, rfl, rfl⟩
    · exact absurd hd (by simp)

/-- C9 witness: a 15-point overall drop fires the event with the claimed
payload; the isSome direction evaluated at a health-only sub-threshold case. -/
theorem score_drop_alert_threshold_witness :
    (scoreDropEvent (some { score := 80, websiteHealthScore := some 75 })
        "https://example.com" 65 70).isSome ∧
    (∀ d, scoreDropEvent (some { score := 80, websiteHealthScore := some 75 })
        "https://example.com" 65 70 = some d →
      d.url = "https://example.com" ∧ d.oldScore = some 80 ∧ d.newScore = 65 ∧
        d.oldHealthScore = some 75 ∧ d.newHealthScore = some 70) := by
  have h := score_drop_alert_threshold "https://example.com"
    { score := 80, websiteHealthScore := some 75 } 65 70 (by norm_num)
  exact ⟨h.1.mpr (Or.inl (by norm_num)), h.2⟩

/-! ## A model of untyped JavaScript values

`sanitizeReview` receives an arbitrary parsed-JSON value.  `JSNum` is a JS
number with `none` for `NaN` (infinities are conflated with `NaN`; hex
string literals are not modelled).  `Json.undef` is `undefined`, so that
missing object fields and explicit `undefined` behave alike. -/

abbrev JSNum := Option ℚ

inductive Json where
  | undef : Json
  | null : Json
  | bool : Bool → Json
  | num : JSNum → Json
  | str : String → Json
  | arr : List Json → Json
  | obj : List (String × Json) → Json

/-- Property access `o[key]`: `undefined` unless `o` is an object with the
key (none of the keys this code reads is an array or string intrinsic). -/
def Json.getField : Json → String → Json
  | .obj fields, key =>
    match fields.find? (fun kv => kv.1 = key) with
    | some kv => kv.2
    | none => .undef
  | _, _ => Json.undef

/-- JS truthiness: `undefined`, `null`, `false`, `NaN`, `0` and `""` are
falsy. -/
def jsTruthy : Json → Bool
  | .undef => false
  | .null => false
  | .bool b => b
  | .num none => false
  | .num (some q) => q ≠ 0
  | .str s => s ≠ ""
  | .arr _ => true
  | .obj _ => true

/-- JS `a || b`. -/
def jsOr (a b : Json) : Json := if jsTruthy a then a else b

/-- JS `a ?? b`. -/
def jsNullish (a b : Json) : Json :=
  match a with
  | .undef => b
  | .null => b
  | _ => a

/-- Decimal rendering of a rational, modelling JS number-to-string for the
decimal-representable values that arise here (a non-decimal rational — which
no JS double is — falls back to a fraction rendering). -/
def qToDecimalString (q : ℚ) : String :=
  if q.den = 1 then toString q.num
  else
    match (List.range 20).find? (fun k => (q * (10:ℚ) ^ (k+1)).den = 1) with
    | some k =>
      let n := (q * (10:ℚ) ^ (k+1)).num
      let sign := if n < 0 then "-" else ""
      let m := n.natAbs
      let ip := m / 10 ^ (k+1)
      let fs := toString (m % 10 ^ (k+1))
      sign ++ toString ip ++ "." ++
        String.mk (List.replicate (k + 1 - fs.length) '0') ++ fs
    | none => toString q.num ++ "/" ++ toString q.den

mutual

/-- JS `String(v)`. -/
def jsToString : Json → String
  | .undef => "undefined"
  | .null => "null"
  | .bool b => if b then "true" else "false"
  | .num none => "NaN"
  | .num (some q) => qToDecimalString q
  | .str s => s
  | .arr l => String.intercalate "," (jsArrayElemStrings l)
  | .obj _ => "[object Object]"

/-- `Array.prototype.toString` renders `null`/`undefined` elements as `""`. -/
def jsArrayElemStrings : List Json → List String
  | [] => []
  | j :: js =>
    (match j with
     | .undef => ""
     | .null => ""
     | j' => jsToString j') :: jsArrayElemStrings js

end

def isDigitCharS (c : Char) : Bool := '0' ≤ c ∧ c ≤ '9'

/-- Exponent suffix of a decimal literal; the whole remainder must be
consumed. -/
def parseExponentPart (l : List Char) (mantissa : ℚ) : Option ℚ :=
  match l with
  | [] => some mantissa
  | e :: rest =>
    if e = 'e' ∨ e = 'E' then
      let core := fun (sgn : Bool) (ds : List Char) =>
        if ds ≠ [] ∧ ds.all isDigitCharS then
          some (mantissa * (10:ℚ) ^ ((if sgn then -(digitsToNat ds : ℤ) else (digitsToNat ds : ℤ))))
        else none
      match rest with
      | '+' :: ds => core false ds
      | '-' :: ds => core true ds
      | ds => core false ds
    else none

/-- Unsigned decimal literal (`digits [. digits?]` or `. digits`, optional
exponent); anything else is `NaN`. -/
def parseUnsignedDecimal (l : List Char) : Option ℚ :=
  match l with
  | '.' :: rest =>
    let frac := rest.takeWhile isDigitCharS
    if frac = [] then none
    else parseExponentPart (rest.dropWhile isDigitCharS)
      ((digitsToNat frac : ℚ) / (10:ℚ) ^ frac.length)
  | _ =>
    let ip := l.takeWhile isDigitCharS
    if ip = [] then none
    else
      match l.dropWhile isDigitCharS with
      | '.' :: rest2 =>
        let frac := rest2.takeWhile isDigitCharS
        parseExponentPart (rest2.dropWhile isDigitCharS)
          ((digitsToNat ip : ℚ) + (digitsToNat frac : ℚ) / (10:ℚ) ^ frac.length)
      | rem => parseExponentPart rem (digitsToNat ip)

/-- JS `Number(string)` on decimal literals; the empty (trimmed) string is
0, anything unparseable is `NaN`. -/
def jsStringToNumber (s : String) : JSNum :=
  let t := jsTrimList s.toList
  if t = [] then some 0
  else
    match t with
    | '+' :: rest => parseUnsignedDecimal rest
    | '-' :: rest => (parseUnsignedDecimal rest).map (fun q => -q)
    | _ => parseUnsignedDecimal t

/-- JS `Number(v)` (`ToPrimitive` of arrays goes through their string). -/
def jsToNumber : Json → JSNum
  | .undef => none
  | .null => some 0
  | .bool b => some (if b then 1 else 0)
  | .num q => q
  | .str s => jsStringToNumber s
  | .arr l => jsStringToNumber (jsToString (.arr l))
  | .obj _ => none

/-! ## Review sanitizer (`src/lib/analysis.ts`) -/

/-- `clampScore` applied to a JS number: `NaN` propagates through
`Math.round`/`min`/`max`. -/
def clampScoreJS (v : JSNum) : JSNum := v.map clampQ

/-- `toClampedScore`: a finite number is clamped, anything else (including
`NaN`) falls back. -/
def toClampedScore (value : Json) (fallback : ℚ) : ℚ :=
  match jsToNumber value with
  | none => fallback
  | some q => clampQ q

/-- JS subtraction `v - d` on a possibly-`NaN` number. -/
def jsNumSub (v : JSNum) (d : ℚ) : JSNum := v.map (fun q => q - d)

def allowedCategories : List String :=
  ["clarity", "layout", "navigation", "accessibility", "trust"]
def allowedSeverity : List String := ["low", "medium", "high"]
def allowedConfidence : List String := ["high", "medium", "low"]
def allowedSourceTypes : List String := ["deterministic", "heuristic", "ai_inferred"]
def allowedPriorityLabels : List String :=
  ["critical", "high", "medium", "low", "quick_win"]

/-- `!input || typeof input !== "object"` keeps exactly objects and arrays
(`null` is falsy). -/
def isObjectLike : Json → Bool
  | .obj _ => true
  | .arr _ => true
  | _ => false

/-- The sanitizer's output shape: scores are JS numbers because
`clampScore(Number(...))` is applied without a finiteness guard, so a
malformed score field yields `NaN`. -/
structure SanSection where
  score : JSNum
  findings : List AuditFinding
  deriving DecidableEq, Repr

structure SanUX where
  score : JSNum
  issues : List UXIssue
  top_improvements : List UXImprovement
  deriving DecidableEq, Repr

structure SanReview where
  score : JSNum
  issues : List UXIssue
  top_improvements : List UXImprovement
  ux : SanUX
  accessibility : SanSection
  seo : SanSection
  visual : SanSection
  deriving DecidableEq, Repr

/-- `String(item[key] || default).toLowerCase()` followed by the
`allowed.includes(value) ? value : default` validation of `normalizeIssue`
(the `||` default and the validation default coincide in the source for
every enum field). -/
def sanitizeEnum (input : Json) (key dflt : String) (allowed : List String) : String :=
  if allowed.contains (jsToLower (jsToString (jsOr (input.getField key) (.str dflt))))
  then jsToLower (jsToString (jsOr (input.getField key) (.str dflt)))
  else dflt

/-- `String(item[key] || default).trim()`. -/
def sanitizeStr (input : Json) (key dflt : String) : String :=
  jsTrim (jsToString (jsOr (input.getField key) (.str dflt)))

/-- `String(item[key] || "").trim() || undefined`. -/
def sanitizeOptStr (input : Json) (key : String) : Option String :=
  if sanitizeStr input key "" = "" then none else some (sanitizeStr input key "")

/-- `normalizeIssue` from `analysis.ts`. -/
def normalizeIssue (input : Json) : Option UXIssue :=
  if ¬ isObjectLike input then none
  else some
    { category := sanitizeEnum input "category" "clarity" allowedCategories
      title := sanitizeStr input "title" "Untitled issue"
      why := sanitizeStr input "why" "No explanation provided."
      evidence := sanitizeStr input "evidence" ""
      severity := sanitizeEnum input "severity" "medium" allowedSeverity
      confidence := some (sanitizeEnum input "confidence" "medium" allowedConfidence)
      evidenceWeight := some (toClampedScore (input.getField "evidenceWeight") 50)
      sourceType := some (sanitizeEnum input "sourceType" "ai_inferred" allowedSourceTypes)
      impactScore := some (toClampedScore (input.getField "impactScore") 60)
      effortScore := some (toClampedScore (input.getField "effortScore") 45)
      priorityScore := some (toClampedScore (input.getField "priorityScore") 50)
      priorityLabel :=
        some (sanitizeEnum input "priorityLabel" "medium" allowedPriorityLabels)
      fixSnippet := sanitizeOptStr input "fixSnippet" }

/-- `normalizeFinding` from `analysis.ts`. -/
def normalizeFinding (input : Json) : Option AuditFinding :=
  if ¬ isObjectLike input then none
  else some
    { title := sanitizeStr input "title" "Untitled finding"
      why := sanitizeStr input "why" "No explanation provided."
      evidence := sanitizeStr input "evidence" ""
      severity := sanitizeEnum input "severity" "medium" allowedSeverity
      confidence := some (sanitizeEnum input "confidence" "medium" allowedConfidence)
      evidenceWeight := some (toClampedScore (input.getField "evidenceWeight") 50)
      sourceType := some (sanitizeEnum input "sourceType" "ai_inferred" allowedSourceTypes)
      impactScore := some (toClampedScore (input.getField "impactScore") 60)
      effortScore := some (toClampedScore (input.getField "effortScore") 45)
      priorityScore := some (toClampedScore (input.getField "priorityScore") 50)
      priorityLabel :=
        some (sanitizeEnum input "priorityLabel" "medium" allowedPriorityLabels)
      fixSnippet := sanitizeOptStr input "fixSnippet" }

/-- The improvement normalization inlined (twice) in `sanitizeReview`. -/
def normalizeImprovement (value : Json) : Option UXImprovement :=
  if ¬ isObjectLike value then none
  else some
    { before := sanitizeStr value "before" ""
      after := sanitizeStr value "after" "" }

/-- `Array.isArray(value) ? value : []`. -/
def jsArrList : Json → List Json
  | .arr l => l
  | _ => []

/-- `normalizeFindings` from `analysis.ts`. -/
def normalizeFindings (value : Json) (fallback : List AuditFinding) : List AuditFinding :=
  if 0 < (((jsArrList value).filterMap normalizeFinding).take 10).length
  then ((jsArrList value).filterMap normalizeFinding).take 10
  else fallback

def optStrJson : Option String → Json
  | none => .undef
  | some s => .str s

def optNumJson : Option ℚ → Json
  | none => .undef
  | some q => .num (some q)

/-- The JS object a normalized issue is (re-sanitization feeds these typed
values back through `normalizeIssue`). -/
def issueToJson (i : UXIssue) : Json :=
  .obj [("category", .str i.category), ("title", .str i.title), ("why", .str i.why),
    ("evidence", .str i.evidence), ("severity", .str i.severity),
    ("confidence", optStrJson i.confidence),
    ("evidenceWeight", optNumJson i.evidenceWeight),
    ("sourceType", optStrJson i.sourceType),
    ("impactScore", optNumJson i.impactScore),
    ("effortScore", optNumJson i.effortScore),
    ("priorityScore", optNumJson i.priorityScore),
    ("priorityLabel", optStrJson i.priorityLabel),
    ("fixSnippet", optStrJson i.fixSnippet)]

def findingToJson (f : AuditFinding) : Json :=
  .obj [("title", .str f.title), ("why", .str f.why), ("evidence", .str f.evidence),
    ("severity", .str f.severity), ("confidence", optStrJson f.confidence),
    ("evidenceWeight", optNumJson f.evidenceWeight),
    ("sourceType", optStrJson f.sourceType),
    ("impactScore", optNumJson f.impactScore),
    ("effortScore", optNumJson f.effortScore),
    ("priorityScore", optNumJson f.priorityScore),
    ("priorityLabel", optStrJson f.priorityLabel),
    ("fixSnippet", optStrJson f.fixSnippet)]

def improvementToJson (t : UXImprovement) : Json :=
  .obj [("before", .str t.before), ("after", .str t.after)]

def sectionToJson (s : SanSection) : Json :=
  .obj [("score", .num s.score), ("findings", .arr (s.findings.map findingToJson))]

def uxToJson (u : SanUX) : Json :=
  .obj [("score", .num u.score), ("issues", .arr (u.issues.map issueToJson)),
    ("top_improvements", .arr (u.top_improvements.map improvementToJson))]

/-- The JS object a sanitized review is. -/
def reviewToJson (r : SanReview) : Json :=
  .obj [("score", .num r.score), ("issues", .arr (r.issues.map issueToJson)),
    ("top_improvements", .arr (r.top_improvements.map improvementToJson)),
    ("ux", uxToJson r.ux), ("accessibility", sectionToJson r.accessibility),
    ("seo", sectionToJson r.seo), ("visual", sectionToJson r.visual)]

/-- The reshaped 4-field fallback finding `sanitizeReview` builds from the
first issues. -/
def issueAsFallbackFinding (issue : UXIssue) : AuditFinding :=
  { title := issue.title, why := issue.why, evidence := issue.evidence
    severity := issue.severity, confidence := none, evidenceWeight := none
    sourceType := none, impactScore := none, effortScore := none
    priorityScore := none, priorityLabel := none, fixSnippet := none }

/-- `sanitizeReview` from `analysis.ts`. -/
def sanitizeReview (input : Json) : SanReview :=
  let source := jsNullish input (.obj [])
  let score : JSNum := clampScoreJS (jsToNumber
    (jsNullish (source.getField "score")
      (jsNullish (source.getField "website_health_score")
        (jsNullish (source.getField "health_score") (.num (some 0))))))
  let rawIssues := match source.getField "issues" with | .arr l => l | _ => []
  let issues := (rawIssues.filterMap normalizeIssue).take 12
  let rawImprovements :=
    match source.getField "top_improvements" with | .arr l => l | _ => []
  let top_improvements := (rawImprovements.filterMap normalizeImprovement).take 3
  let fallbackFindings := (issues.take 6).map issueAsFallbackFinding
  let uxSection := jsOr (source.getField "ux") (.obj [])
  let uxIssues := ((match uxSection.getField "issues" with
    | .arr l => l
    | _ => issues.map issueToJson).filterMap normalizeIssue).take 12
  let uxTopImprovements := ((match uxSection.getField "top_improvements" with
    | .arr l => l
    | _ => top_improvements.map improvementToJson).filterMap normalizeImprovement).take 3
  let accessibilitySection :=
    jsOr (source.getField "accessibility") (jsOr (source.getField "a11y") (.obj []))
  let seoSection := jsOr (source.getField "seo") (.obj [])
  let visualSection :=
    jsOr (source.getField "visual") (jsOr (source.getField "visual_findings") (.obj []))
  { score := score
    issues := if 0 < uxIssues.length then uxIssues else issues
    top_improvements :=
      if 0 < uxTopImprovements.length then uxTopImprovements else top_improvements
    ux :=
      { score := clampScoreJS (jsToNumber (jsNullish (uxSection.getField "score") (.num score)))
        issues := if 0 < uxIssues.length then uxIssues else issues
        top_improvements :=
          if 0 < uxTopImprovements.length then uxTopImprovements else top_improvements }
    accessibility :=
      { score := clampScoreJS (jsToNumber
          (jsNullish (accessibilitySection.getField "score") (.num (jsNumSub score 8))))
        findings := normalizeFindings (accessibilitySection.getField "findings") fallbackFindings }
    seo :=
      { score := clampScoreJS (jsToNumber
          (jsNullish (seoSection.getField "score") (.num (jsNumSub score 6))))
        findings := normalizeFindings (seoSection.getField "findings") fallbackFindings }
    visual :=
      { score := clampScoreJS (jsToNumber
          (jsNullish (visualSection.getField "score") (.num (jsNumSub score 5))))
        findings := normalizeFindings (visualSection.getField "findings") fallbackFindings } }

/-- C2 counterexample input: a well-formed model response with one issue and
no section objects, so every section's findings fall back to reshaped
issues. -/
def c2Input : Json :=
  Json.obj [("score", Json.num (some 50)),
    ("issues", Json.arr [Json.obj [("category", Json.str "clarity"),
      ("title", Json.str "Vague CTA"), ("why", Json.str "Users hesitate."),
      ("evidence", Json.str "Sign up"), ("severity", Json.str "high")]])]

/-- C2 counterexample: the sanitizer is not idempotent — re-sanitizing the
review of `c2Input` changes it (the fallback-reshaped section findings get
the enrichment defaults filled in: their `confidence` goes from absent to
`"medium"`). -/
theorem sanitizer_not_idempotent :
    sanitizeReview (reviewToJson (sanitizeReview c2Input)) ≠ sanitizeReview c2Input := by
  intro hEq
  have hproj := congrArg
    (fun r => r.accessibility.findings.map (fun f => f.confidence)) hEq
  exact absurd hproj (by decide)

/-! ## Normal forms preserved by the sanitizer -/

/-- A string `trim` leaves unchanged. -/
def TrimmedStr (s : String) : Prop := jsTrim s = s

/-- A number `clampScore` leaves unchanged. -/
def Clamped (q : ℚ) : Prop := clampQ q = q

/-- A JS number `clampScore` leaves unchanged. -/
def ClampedJS (v : JSNum) : Prop := clampScoreJS v = v

theorem jsTrimList_eq_rdropWhile (l : List Char) :
    jsTrimList l = List.rdropWhile jsIsSpace (l.dropWhile jsIsSpace) := rfl

theorem dropWhile_head_not (p : Char → Bool) (l : List Char) :
    ∀ c, (l.dropWhile p).head? = some c → p c = false := by
  induction l with
  | nil => simp [List.dropWhile]
  | cons a t ih =>
    intro c hc
    simp only [List.dropWhile] at hc
    split at hc
    · exact ih c hc
    · rename_i hpa
      injection hc with hc
      subst hc
      simpa using hpa

theorem dropWhile_eq_self_of_head (p : Char → Bool) (l : List Char)
    (h : ∀ c, l.head? = some c → p c = false) : l.dropWhile p = l := by
  cases l with
  | nil => rfl
  | cons a t =>
    simp only [List.dropWhile, h a rfl]

theorem dropWhile_rdropWhile_dropWhile (p : Char → Bool) (l : List Char) :
    List.dropWhile p (List.rdropWhile p (List.dropWhile p l)) =
      List.rdropWhile p (List.dropWhile p l) := by
  apply dropWhile_eq_self_of_head
  intro c hc
  obtain ⟨t, ht⟩ := List.rdropWhile_prefix p (List.dropWhile p l)
  have hm : (List.dropWhile p l).head? = some c := by
    rw [← ht]
    cases hrd : List.rdropWhile p (List.dropWhile p l) with
    | nil =>
      rw [hrd] at hc
      simp at hc
    | cons x xs =>
      rw [hrd] at hc
      simp only [List.head?_cons, Option.some_inj] at hc
      subst hc
      rfl
  exact dropWhile_head_not p l c hm

theorem jsTrimList_idem (l : List Char) : jsTrimList (jsTrimList l) = jsTrimList l := by
  rw [jsTrimList_eq_rdropWhile, jsTrimList_eq_rdropWhile,
    dropWhile_rdropWhile_dropWhile, List.rdropWhile_idempotent]

theorem jsTrim_idem (s : String) : TrimmedStr (jsTrim s) := by
  show jsTrim (jsTrim s) = jsTrim s
  unfold jsTrim
  rw [show (String.mk (jsTrimList s.toList)).toList = jsTrimList s.toList from rfl,
    jsTrimList_idem]

theorem clampScoreJS_idem (v : JSNum) : ClampedJS (clampScoreJS v) := by
  cases v <;> simp [ClampedJS, clampScoreJS, clampQ_idem]

theorem toClampedScore_clamped (v : Json) {fb : ℚ} (hfb : Clamped fb) :
    Clamped (toClampedScore v fb) := by
  rw [toClampedScore]
  cases jsToNumber v
  · exact hfb
  · exact clampQ_idem _

theorem clamped_lit {n : ℤ} (h0 : 0 ≤ n) (h100 : n ≤ 100) : Clamped ((n : ℚ)) :=
  clampQ_eq_self (by exact_mod_cast h0) (by exact_mod_cast h100) (Rat.den_intCast n)

theorem clamped_50 : Clamped (50 : ℚ) := by
  have := clamped_lit (n := 50) (by norm_num) (by norm_num)
  simpa using this

theorem clamped_60 : Clamped (60 : ℚ) := by
  have := clamped_lit (n := 60) (by norm_num) (by norm_num)
  simpa using this

theorem clamped_45 : Clamped (45 : ℚ) := by
  have := clamped_lit (n := 45) (by norm_num) (by norm_num)
  simpa using this

/-- Shape of every issue `normalizeIssue` emits. -/
structure IssueNorm (i : UXIssue) : Prop where
  cat : i.category ∈ allowedCategories
  title : TrimmedStr i.title
  why : TrimmedStr i.why
  evidence : TrimmedStr i.evidence
  sev : i.severity ∈ allowedSeverity
  conf : ∃ c, i.confidence = some c ∧ c ∈ allowedConfidence
  ew : ∃ w, i.evidenceWeight = some w ∧ Clamped w
  st : ∃ t, i.sourceType = some t ∧ t ∈ allowedSourceTypes
  imp : ∃ v, i.impactScore = some v ∧ Clamped v
  eff : ∃ v, i.effortScore = some v ∧ Clamped v
  pri : ∃ v, i.priorityScore = some v ∧ Clamped v
  pl : ∃ l, i.priorityLabel = some l ∧ l ∈ allowedPriorityLabels
  fix : ∀ s, i.fixSnippet = some s → TrimmedStr s ∧ s ≠ ""

/-- Shape of every finding `normalizeFinding` emits. -/
structure FindingNorm (f : AuditFinding) : Prop where
  title : TrimmedStr f.title
  why : TrimmedStr f.why
  evidence : TrimmedStr f.evidence
  sev : f.severity ∈ allowedSeverity
  conf : ∃ c, f.confidence = some c ∧ c ∈ allowedConfidence
  ew : ∃ w, f.evidenceWeight = some w ∧ Clamped w
  st : ∃ t, f.sourceType = some t ∧ t ∈ allowedSourceTypes
  imp : ∃ v, f.impactScore = some v ∧ Clamped v
  eff : ∃ v, f.effortScore = some v ∧ Clamped v
  pri : ∃ v, f.priorityScore = some v ∧ Clamped v
  pl : ∃ l, f.priorityLabel = some l ∧ l ∈ allowedPriorityLabels
  fix : ∀ s, f.fixSnippet = some s → TrimmedStr s ∧ s ≠ ""

/-- Shape of every improvement the sanitizer emits. -/
structure ImpNorm (t : UXImprovement) : Prop where
  before : TrimmedStr t.before
  after : TrimmedStr t.after

theorem allowedCategories_facts :
    ∀ c ∈ allowedCategories,
      jsToLower c = c ∧ c ≠ "" ∧ allowedCategories.contains c = true := by decide

theorem allowedSeverity_facts :
    ∀ c ∈ allowedSeverity,
      jsToLower c = c ∧ c ≠ "" ∧ allowedSeverity.contains c = true := by decide

theorem allowedConfidence_facts :
    ∀ c ∈ allowedConfidence,
      jsToLower c = c ∧ c ≠ "" ∧ allowedConfidence.contains c = true := by decide

theorem allowedSourceTypes_facts :
    ∀ c ∈ allowedSourceTypes,
      jsToLower c = c ∧ c ≠ "" ∧ allowedSourceTypes.contains c = true := by decide

theorem allowedPriorityLabels_facts :
    ∀ c ∈ allowedPriorityLabels,
      jsToLower c = c ∧ c ≠ "" ∧ allowedPriorityLabels.contains c = true := by decide

theorem jsOr_str_of_ne {c : String} (d : Json) (h : c ≠ "") :
    jsOr (.str c) d = .str c := by
  simp [jsOr, jsTruthy, h]

theorem ite_contains_mem {l : List String} {c d : String} (hd : d ∈ l) :
    (if l.contains c then c else d) ∈ l := by
  split
  · rename_i hc
    exact List.mem_of_elem_eq_true hc
  · exact hd

theorem sanitizeEnum_mem {inp : Json} {key d : String} {allowed : List String}
    (hd : d ∈ allowed) : sanitizeEnum inp key d allowed ∈ allowed := by
  rw [sanitizeEnum]
  exact ite_contains_mem hd

theorem sanitizeStr_trimmed {inp : Json} {key d : String} :
    TrimmedStr (sanitizeStr inp key d) :=
  jsTrim_idem _

theorem sanitizeOptStr_norm {inp : Json} {key : String} :
    ∀ s, sanitizeOptStr inp key = some s → TrimmedStr s ∧ s ≠ "" := by
  intro s hs
  rw [sanitizeOptStr] at hs
  split at hs
  · exact absurd hs (by simp)
  · rename_i hne
    simp only [Option.some_inj] at hs
    subst hs
    exact ⟨sanitizeStr_trimmed, hne⟩

/-- Everything `normalizeIssue` emits is in issue normal form. -/
theorem normalizeIssue_norm {j : Json} {i : UXIssue} (h : normalizeIssue j = some i) :
    IssueNorm i := by
  rw [normalizeIssue] at h
  split at h
  · exact absurd h (by simp)
  · simp only [Option.some_inj] at h
    subst h
    exact ⟨sanitizeEnum_mem (by decide), sanitizeStr_trimmed, sanitizeStr_trimmed,
      sanitizeStr_trimmed, sanitizeEnum_mem (by decide),
      ⟨_, rfl, sanitizeEnum_mem (by decide)⟩,
      ⟨_, rfl, toClampedScore_clamped _ clamped_50⟩,
      ⟨_, rfl, sanitizeEnum_mem (by decide)⟩,
      ⟨_, rfl, toClampedScore_clamped _ clamped_60⟩,
      ⟨_, rfl, toClampedScore_clamped _ clamped_45⟩,
      ⟨_, rfl, toClampedScore_clamped _ clamped_50⟩,
      ⟨_, rfl, sanitizeEnum_mem (by decide)⟩, sanitizeOptStr_norm⟩

/-- Everything `normalizeFinding` emits is in finding normal form. -/
theorem normalizeFinding_norm {j : Json} {f : AuditFinding}
    (h : normalizeFinding j = some f) : FindingNorm f := by
  rw [normalizeFinding] at h
  split at h
  · exact absurd h (by simp)
  · simp only [Option.some_inj] at h
    subst h
    exact ⟨sanitizeStr_trimmed, sanitizeStr_trimmed, sanitizeStr_trimmed,
      sanitizeEnum_mem (by decide), ⟨_, rfl, sanitizeEnum_mem (by decide)⟩,
      ⟨_, rfl, toClampedScore_clamped _ clamped_50⟩,
      ⟨_, rfl, sanitizeEnum_mem (by decide)⟩,
      ⟨_, rfl, toClampedScore_clamped _ clamped_60⟩,
      ⟨_, rfl, toClampedScore_clamped _ clamped_45⟩,
      ⟨_, rfl, toClampedScore_clamped _ clamped_50⟩,
      ⟨_, rfl, sanitizeEnum_mem (by decide)⟩, sanitizeOptStr_norm⟩

/-- Everything the improvement normalization emits is trimmed. -/
theorem normalizeImprovement_norm {j : Json} {t : UXImprovement}
    (h : normalizeImprovement j = some t) : ImpNorm t := by
  rw [normalizeImprovement] at h
  split at h
  · exact absurd h (by simp)
  · simp only [Option.some_inj] at h
    subst h
    exact ⟨sanitizeStr_trimmed, sanitizeStr_trimmed⟩

theorem jsTrim_jsOr_str_empty (e : String) :
    jsTrim (jsToString (jsOr (.str e) (.str ""))) = jsTrim e := by
  by_cases he : e = "" <;> simp [jsOr, jsTruthy, he, jsToString]

/-! ## Round trips: normalization is stable on already-normalized data -/

theorem sanitizeEnum_eq {inp : Json} {key d : String} {allowed : List String} {c : String}
    (hg : inp.getField key = Json.str c) (hl : jsToLower c = c) (hne : c ≠ "")
    (hcont : allowed.contains c = true) :
    sanitizeEnum inp key d allowed = c := by
  rw [sanitizeEnum, hg, jsOr_str_of_ne _ hne,
    show jsToString (Json.str c) = c from rfl, hl, if_pos hcont]

theorem sanitizeStr_eq {inp : Json} {key d c : String}
    (hg : inp.getField key = Json.str c) (hT : TrimmedStr c) (hne : c ≠ "") :
    sanitizeStr inp key d = c := by
  rw [sanitizeStr, hg, jsOr_str_of_ne _ hne]
  exact hT

theorem sanitizeStr_empty {inp : Json} {key c : String}
    (hg : inp.getField key = Json.str c) (hT : TrimmedStr c) :
    sanitizeStr inp key "" = c := by
  rw [sanitizeStr, hg, jsTrim_jsOr_str_empty]
  exact hT

theorem sanitizeEnumOpt_eq {inp : Json} {key d : String} {allowed : List String}
    {o : Option String} {c : String}
    (hg : inp.getField key = optStrJson o) (ho : o = some c)
    (hl : jsToLower c = c) (hne : c ≠ "") (hcont : allowed.contains c = true) :
    some (sanitizeEnum inp key d allowed) = o := by
  subst ho
  rw [sanitizeEnum_eq (by rw [hg]; rfl) hl hne hcont]

theorem toClampedScoreOpt_eq {inp : Json} {key : String} {fb : ℚ} {o : Option ℚ} {w : ℚ}
    (hg : inp.getField key = optNumJson o) (ho : o = some w) (hw : Clamped w) :
    some (toClampedScore (inp.getField key) fb) = o := by
  subst ho
  rw [hg]
  show some (clampQ w) = some w
  rw [hw]

theorem sanitizeOptStr_eq_none {inp : Json} {key : String}
    (hg : inp.getField key = Json.undef) : sanitizeOptStr inp key = none := by
  rw [sanitizeOptStr, sanitizeStr, hg]
  rfl

theorem sanitizeOptStr_eq_some {inp : Json} {key s : String}
    (hg : inp.getField key = Json.str s) (hT : TrimmedStr s) (hne : s ≠ "") :
    sanitizeOptStr inp key = some s := by
  rw [sanitizeOptStr, sanitizeStr_empty hg hT, if_neg hne]

theorem sanitizeOptStr_round {inp : Json} {key : String} {o : Option String}
    (hg : inp.getField key = optStrJson o)
    (hN : ∀ s, o = some s → TrimmedStr s ∧ s ≠ "") :
    sanitizeOptStr inp key = o := by
  cases o with
  | none => exact sanitizeOptStr_eq_none (by rw [hg]; rfl)
  | some s =>
    obtain ⟨hT, hne⟩ := hN s rfl
    exact sanitizeOptStr_eq_some (by rw [hg]; rfl) hT hne

/-- Re-normalizing the JS object of a normal-form issue with a nonempty
title and why gives the issue back unchanged. -/
theorem normalizeIssue_stable {i : UXIssue} (h : IssueNorm i)
    (ht : i.title ≠ "") (hw : i.why ≠ "") :
    normalizeIssue (issueToJson i) = some i := by
  obtain ⟨hcat, hTt, hTw, hTe, hsev, ⟨c, hc, hcm⟩, ⟨w, hwq, hwC⟩, ⟨t, htq, htm⟩,
    ⟨vi, hviq, hviC⟩, ⟨ve, hveq, hveC⟩, ⟨vp, hvpq, hvpC⟩, ⟨lb, hlbq, hlbm⟩, hfixN⟩ := h
  obtain ⟨hl1, hn1, hc1⟩ := allowedCategories_facts _ hcat
  obtain ⟨hl2, hn2, hc2⟩ := allowedSeverity_facts _ hsev
  obtain ⟨hl3, hn3, hc3⟩ := allowedConfidence_facts _ hcm
  obtain ⟨hl4, hn4, hc4⟩ := allowedSourceTypes_facts _ htm
  obtain ⟨hl5, hn5, hc5⟩ := allowedPriorityLabels_facts _ hlbm
  have hg1 : (issueToJson i).getField "category" = Json.str i.category := rfl
  have hg2 : (issueToJson i).getField "title" = Json.str i.title := rfl
  have hg3 : (issueToJson i).getField "why" = Json.str i.why := rfl
  have hg4 : (issueToJson i).getField "evidence" = Json.str i.evidence := rfl
  have hg5 : (issueToJson i).getField "severity" = Json.str i.severity := rfl
  have hg6 : (issueToJson i).getField "confidence" = optStrJson i.confidence := rfl
  have hg7 : (issueToJson i).getField "evidenceWeight" = optNumJson i.evidenceWeight := rfl
  have hg8 : (issueToJson i).getField "sourceType" = optStrJson i.sourceType := rfl
  have hg9 : (issueToJson i).getField "impactScore" = optNumJson i.impactScore := rfl
  have hg10 : (issueToJson i).getField "effortScore" = optNumJson i.effortScore := rfl
  have hg11 : (issueToJson i).getField "priorityScore" = optNumJson i.priorityScore := rfl
  have hg12 : (issueToJson i).getField "priorityLabel" = optStrJson i.priorityLabel := rfl
  have hg13 : (issueToJson i).getField "fixSnippet" = optStrJson i.fixSnippet := rfl
  rw [normalizeIssue]
  split
  · rename_i hob
    exact absurd rfl hob
  · rw [sanitizeEnum_eq hg1 hl1 hn1 hc1, sanitizeStr_eq hg2 hTt ht,
      sanitizeStr_eq hg3 hTw hw, sanitizeStr_empty hg4 hTe,
      sanitizeEnum_eq hg5 hl2 hn2 hc2, sanitizeEnumOpt_eq hg6 hc hl3 hn3 hc3,
      toClampedScoreOpt_eq hg7 hwq hwC, sanitizeEnumOpt_eq hg8 htq hl4 hn4 hc4,
      toClampedScoreOpt_eq hg9 hviq hviC, toClampedScoreOpt_eq hg10 hveq hveC,
      toClampedScoreOpt_eq hg11 hvpq hvpC, sanitizeEnumOpt_eq hg12 hlbq hl5 hn5 hc5,
      sanitizeOptStr_round hg13 hfixN]

/-- Re-normalizing the JS object of a normal-form finding with a nonempty
title and why gives the finding back unchanged. -/
theorem normalizeFinding_stable {f : AuditFinding} (h : FindingNorm f)
    (ht : f.title ≠ "") (hw : f.why ≠ "") :
    normalizeFinding (findingToJson f) = some f := by
  obtain ⟨hTt, hTw, hTe, hsev, ⟨c, hc, hcm⟩, ⟨w, hwq, hwC⟩, ⟨t, htq, htm⟩,
    ⟨vi, hviq, hviC⟩, ⟨ve, hveq, hveC⟩, ⟨vp, hvpq, hvpC⟩, ⟨lb, hlbq, hlbm⟩, hfixN⟩ := h
  obtain ⟨hl2, hn2, hc2⟩ := allowedSeverity_facts _ hsev
  obtain ⟨hl3, hn3, hc3⟩ := allowedConfidence_facts _ hcm
  obtain ⟨hl4, hn4, hc4⟩ := allowedSourceTypes_facts _ htm
  obtain ⟨hl5, hn5, hc5⟩ := allowedPriorityLabels_facts _ hlbm
  have hg2 : (findingToJson f).getField "title" = Json.str f.title := rfl
  have hg3 : (findingToJson f).getField "why" = Json.str f.why := rfl
  have hg4 : (findingToJson f).getField "evidence" = Json.str f.evidence := rfl
  have hg5 : (findingToJson f).getField "severity" = Json.str f.severity := rfl
  have hg6 : (findingToJson f).getField "confidence" = optStrJson f.confidence := rfl
  have hg7 : (findingToJson f).getField "evidenceWeight" = optNumJson f.evidenceWeight := rfl
  have hg8 : (findingToJson f).getField "sourceType" = optStrJson f.sourceType := rfl
  have hg9 : (findingToJson f).getField "impactScore" = optNumJson f.impactScore := rfl
  have hg10 : (findingToJson f).getField "effortScore" = optNumJson f.effortScore := rfl
  have hg11 : (findingToJson f).getField "priorityScore" = optNumJson f.priorityScore := rfl
  have hg12 : (findingToJson f).getField "priorityLabel" = optStrJson f.priorityLabel := rfl
  have hg13 : (findingToJson f).getField "fixSnippet" = optStrJson f.fixSnippet := rfl
  rw [normalizeFinding]
  split
  · rename_i hob
    exact absurd rfl hob
  · rw [sanitizeStr_eq hg2 hTt ht, sanitizeStr_eq hg3 hTw hw, sanitizeStr_empty hg4 hTe,
      sanitizeEnum_eq hg5 hl2 hn2 hc2, sanitizeEnumOpt_eq hg6 hc hl3 hn3 hc3,
      toClampedScoreOpt_eq hg7 hwq hwC, sanitizeEnumOpt_eq hg8 htq hl4 hn4 hc4,
      toClampedScoreOpt_eq hg9 hviq hviC, toClampedScoreOpt_eq hg10 hveq hveC,
      toClampedScoreOpt_eq hg11 hvpq hvpC, sanitizeEnumOpt_eq hg12 hlbq hl5 hn5 hc5,
      sanitizeOptStr_round hg13 hfixN]

/-- Re-normalizing the JS object of a trimmed improvement gives it back. -/
theorem normalizeImprovement_stable {t : UXImprovement} (h : ImpNorm t) :
    normalizeImprovement (improvementToJson t) = some t := by
  obtain ⟨hb, ha⟩ := h
  have hgb : (improvementToJson t).getField "before" = Json.str t.before := rfl
  have hga : (improvementToJson t).getField "after" = Json.str t.after := rfl
  rw [normalizeImprovement]
  split
  · rename_i hob
    exact absurd rfl hob
  · rw [sanitizeStr_empty hgb hb, sanitizeStr_empty hga ha]

theorem filterMap_map_stable {α β : Type} (f : α → β) (g : β → Option α) :
    ∀ (l : List α), (∀ a ∈ l, g (f a) = some a) → (l.map f).filterMap g = l := by
  intro l
  induction l with
  | nil => intro _; rfl
  | cons x xs ih =>
    intro h
    simp only [List.map_cons, List.filterMap_cons, h x (List.mem_cons_self x xs),
      ih (fun a ha => h a (List.mem_cons_of_mem _ ha))]

theorem stableTake_issues {l : List UXIssue} (hN : ∀ i ∈ l, IssueNorm i)
    (hI : ∀ i ∈ l, i.title ≠ "" ∧ i.why ≠ "") (hlen : l.length ≤ 12) :
    ((l.map issueToJson).filterMap normalizeIssue).take 12 = l := by
  rw [filterMap_map_stable issueToJson normalizeIssue _
    (fun i hi => normalizeIssue_stable (hN i hi) (hI i hi).1 (hI i hi).2)]
  exact List.take_of_length_le hlen

theorem stableTake_improvements {l : List UXImprovement} (hN : ∀ t ∈ l, ImpNorm t)
    (hlen : l.length ≤ 3) :
    ((l.map improvementToJson).filterMap normalizeImprovement).take 3 = l := by
  rw [filterMap_map_stable improvementToJson normalizeImprovement _
    (fun t ht => normalizeImprovement_stable (hN t ht))]
  exact List.take_of_length_le hlen

theorem stableTake_findings {l : List AuditFinding} (hN : ∀ f ∈ l, FindingNorm f)
    (hF : ∀ f ∈ l, f.title ≠ "" ∧ f.why ≠ "") (hlen : l.length ≤ 10) :
    ((l.map findingToJson).filterMap normalizeFinding).take 10 = l := by
  rw [filterMap_map_stable findingToJson normalizeFinding _
    (fun f hf => normalizeFinding_stable (hN f hf) (hF f hf).1 (hF f hf).2)]
  exact List.take_of_length_le hlen

/-! ## The sanitizer's output invariant -/

/-- Normal form of every `sanitizeReview` output: clamped scores, truncated
lists of normal-form entries, the `ux` block mirroring the top level, and
section findings that are either fully normalized or fallback-reshaped
issues (recognizable by their absent `confidence`). -/
structure ReviewNorm (y : SanReview) : Prop where
  scoreC : ClampedJS y.score
  issuesN : ∀ i ∈ y.issues, IssueNorm i
  issuesLen : y.issues.length ≤ 12
  topN : ∀ t ∈ y.top_improvements, ImpNorm t
  topLen : y.top_improvements.length ≤ 3
  uxScoreC : ClampedJS y.ux.score
  uxIssues : y.ux.issues = y.issues
  uxTop : y.ux.top_improvements = y.top_improvements
  accScoreC : ClampedJS y.accessibility.score
  accF : ∀ f ∈ y.accessibility.findings, FindingNorm f ∨ f.confidence = none
  accLen : y.accessibility.findings.length ≤ 10
  seoScoreC : ClampedJS y.seo.score
  seoF : ∀ f ∈ y.seo.findings, FindingNorm f ∨ f.confidence = none
  seoLen : y.seo.findings.length ≤ 10
  visScoreC : ClampedJS y.visual.score
  visF : ∀ f ∈ y.visual.findings, FindingNorm f ∨ f.confidence = none
  visLen : y.visual.findings.length ≤ 10

theorem issuesN_of (l1 l2 : List Json) :
    ∀ i ∈ (if 0 < ((l1.filterMap normalizeIssue).take 12).length
      then (l1.filterMap normalizeIssue).take 12
      else (l2.filterMap normalizeIssue).take 12), IssueNorm i := by
  intro i hi
  split at hi
  all_goals
    obtain ⟨j, hjm, hj⟩ := List.mem_filterMap.mp (List.take_subset _ _ hi)
    exact normalizeIssue_norm hj

theorem topN_of (l1 l2 : List Json) :
    ∀ t ∈ (if 0 < ((l1.filterMap normalizeImprovement).take 3).length
      then (l1.filterMap normalizeImprovement).take 3
      else (l2.filterMap normalizeImprovement).take 3), ImpNorm t := by
  intro t ht
  split at ht
  all_goals
    obtain ⟨j, hjm, hj⟩ := List.mem_filterMap.mp (List.take_subset _ _ ht)
    exact normalizeImprovement_norm hj

theorem lenIte {α : Type} {c : Prop} [Decidable c] {A B : List α} {n : ℕ}
    (hA : A.length ≤ n) (hB : B.length ≤ n) : (if c then A else B).length ≤ n := by
  split
  · exact hA
  · exact hB

theorem normalizeFindings_shape {v : Json} {fb : List AuditFinding}
    (hfb : ∀ f ∈ fb, f.confidence = none) :
    ∀ f ∈ normalizeFindings v fb, FindingNorm f ∨ f.confidence = none := by
  intro f hf
  rw [normalizeFindings] at hf
  split at hf
  · obtain ⟨j, hjm, hj⟩ := List.mem_filterMap.mp (List.take_subset _ _ hf)
    exact Or.inl (normalizeFinding_norm hj)
  · exact Or.inr (hfb f hf)

theorem normalizeFindings_len {v : Json} {fb : List AuditFinding}
    (hfb : fb.length ≤ 10) : (normalizeFindings v fb).length ≤ 10 := by
  rw [normalizeFindings]
  split
  · exact List.length_take_le _ _
  · exact hfb

theorem fallback_conf_none (l : List UXIssue) :
    ∀ f ∈ (l.take 6).map issueAsFallbackFinding, f.confidence = none := by
  intro f hf
  obtain ⟨i, _, hi⟩ := List.mem_map.mp hf
  rw [← hi]
  rfl

theorem fallback_len_le (l : List UXIssue) :
    ((l.take 6).map issueAsFallbackFinding).length ≤ 10 := by
  rw [List.length_map]
  exact le_trans (List.length_take_le _ _) (by norm_num)

/-- Every output of `sanitizeReview` satisfies the invariant. -/
theorem sanitizeReview_norm (x : Json) : ReviewNorm (sanitizeReview x) :=
  ⟨clampScoreJS_idem _,
    issuesN_of _ _,
    lenIte (List.length_take_le _ _) (List.length_take_le _ _),
    topN_of _ _,
    lenIte (List.length_take_le _ _) (List.length_take_le _ _),
    clampScoreJS_idem _, rfl, rfl,
    clampScoreJS_idem _,
    normalizeFindings_shape (fallback_conf_none _),
    normalizeFindings_len (fallback_len_le _),
    clampScoreJS_idem _,
    normalizeFindings_shape (fallback_conf_none _),
    normalizeFindings_len (fallback_len_le _),
    clampScoreJS_idem _,
    normalizeFindings_shape (fallback_conf_none _),
    normalizeFindings_len (fallback_len_le _)⟩

/-- A review in the sanitizer's normal form whose issues and section
findings carry nonempty titles and whys, whose section findings are fully
normalized (present `confidence`), and whose sections are only empty when
the issue list is, is a fixed point of re-sanitization. -/
theorem sanitizeReview_stable {y : SanReview} (hN : ReviewNorm y)
    (hI : ∀ i ∈ y.issues, i.title ≠ "" ∧ i.why ≠ "")
    (hA : ∀ f ∈ y.accessibility.findings,
      f.confidence ≠ none ∧ f.title ≠ "" ∧ f.why ≠ "")
    (hS : ∀ f ∈ y.seo.findings, f.confidence ≠ none ∧ f.title ≠ "" ∧ f.why ≠ "")
    (hV : ∀ f ∈ y.visual.findings, f.confidence ≠ none ∧ f.title ≠ "" ∧ f.why ≠ "")
    (hAe : y.accessibility.findings = [] → y.issues = [])
    (hSe : y.seo.findings = [] → y.issues = [])
    (hVe : y.visual.findings = [] → y.issues = []) :
    sanitizeReview (reviewToJson y) = y := by
  obtain ⟨sc, iss, top, ⟨uxsc, uxiss, uxtop⟩, ⟨asc, af⟩, ⟨ssc, sf⟩, ⟨vsc, vf⟩⟩ := y
  obtain ⟨hscC0, hissN0, hissLen0, htopN0, htopLen0, huxscC0, huxiss0, huxtop0,
    haccC0, haccF0, haccLen0, hseoC0, hseoF0, hseoLen0, hvisC0, hvisF0, hvisLen0⟩ := hN
  have hscC : clampScoreJS sc = sc := hscC0
  have hissN : ∀ i ∈ iss, IssueNorm i := hissN0
  have hissLen : iss.length ≤ 12 := hissLen0
  have htopN : ∀ t ∈ top, ImpNorm t := htopN0
  have htopLen : top.length ≤ 3 := htopLen0
  have huxscC : clampScoreJS uxsc = uxsc := huxscC0
  have huxiss : uxiss = iss := huxiss0
  have huxtop : uxtop = top := huxtop0
  have haccC : clampScoreJS asc = asc := haccC0
  have haccF : ∀ f ∈ af, FindingNorm f ∨ f.confidence = none := haccF0
  have haccLen : af.length ≤ 10 := haccLen0
  have hseoC : clampScoreJS ssc = ssc := hseoC0
  have hseoF : ∀ f ∈ sf, FindingNorm f ∨ f.confidence = none := hseoF0
  have hseoLen : sf.length ≤ 10 := hseoLen0
  have hvisC : clampScoreJS vsc = vsc := hvisC0
  have hvisF : ∀ f ∈ vf, FindingNorm f ∨ f.confidence = none := hvisF0
  have hvisLen : vf.length ≤ 10 := hvisLen0
  have hI' : ∀ i ∈ iss, i.title ≠ "" ∧ i.why ≠ "" := hI
  have hA' : ∀ f ∈ af, f.confidence ≠ none ∧ f.title ≠ "" ∧ f.why ≠ "" := hA
  have hS' : ∀ f ∈ sf, f.confidence ≠ none ∧ f.title ≠ "" ∧ f.why ≠ "" := hS
  have hV' : ∀ f ∈ vf, f.confidence ≠ none ∧ f.title ≠ "" ∧ f.why ≠ "" := hV
  have hAe' : af = [] → iss = [] := hAe
  have hSe' : sf = [] → iss = [] := hSe
  have hVe' : vf = [] → iss = [] := hVe
  have hIss : ((iss.map issueToJson).filterMap normalizeIssue).take 12 = iss :=
    stableTake_issues hissN hI' hissLen
  have hTop :
      ((top.map improvementToJson).filterMap normalizeImprovement).take 3 = top :=
    stableTake_improvements htopN htopLen
  have hSec : ∀ (l : List AuditFinding),
      (∀ f ∈ l, FindingNorm f ∨ f.confidence = none) →
      (∀ f ∈ l, f.confidence ≠ none ∧ f.title ≠ "" ∧ f.why ≠ "") →
      l.length ≤ 10 → (l = [] → iss = []) →
      normalizeFindings (Json.arr (l.map findingToJson))
        ((iss.take 6).map issueAsFallbackFinding) = l := by
    intro l hlF hl hlLen hle
    have hstab : ((l.map findingToJson).filterMap normalizeFinding).take 10 = l :=
      stableTake_findings
        (fun f hf => (hlF f hf).resolve_right (hl f hf).1)
        (fun f hf => ⟨(hl f hf).2.1, (hl f hf).2.2⟩) hlLen
    rw [normalizeFindings,
      show jsArrList (Json.arr (l.map findingToJson)) = l.map findingToJson from rfl,
      hstab]
    by_cases hl0 : l = []
    · subst hl0
      rw [if_neg (by simp), hle rfl]
      rfl
    · rw [if_pos (List.length_pos.mpr hl0)]
  show
    ({ score := clampScoreJS sc
       issues :=
         if 0 < (((uxiss.map issueToJson).filterMap normalizeIssue).take 12).length
           then ((uxiss.map issueToJson).filterMap normalizeIssue).take 12
           else ((iss.map issueToJson).filterMap normalizeIssue).take 12
       top_improvements :=
         if 0 < (((uxtop.map improvementToJson).filterMap
             normalizeImprovement).take 3).length
           then ((uxtop.map improvementToJson).filterMap normalizeImprovement).take 3
           else ((top.map improvementToJson).filterMap normalizeImprovement).take 3
       ux :=
         { score := clampScoreJS uxsc
           issues :=
             if 0 < (((uxiss.map issueToJson).filterMap normalizeIssue).take 12).length
               then ((uxiss.map issueToJson).filterMap normalizeIssue).take 12
               else ((iss.map issueToJson).filterMap normalizeIssue).take 12
           top_improvements :=
             if 0 < (((uxtop.map improvementToJson).filterMap
                 normalizeImprovement).take 3).length
               then ((uxtop.map improvementToJson).filterMap
                 normalizeImprovement).take 3
               else ((top.map improvementToJson).filterMap
                 normalizeImprovement).take 3 }
       accessibility :=
         { score := clampScoreJS asc
           findings :=
             normalizeFindings (Json.arr (af.map findingToJson))
               (((((iss.map issueToJson).filterMap normalizeIssue).take 12).take 6).map
                 issueAsFallbackFinding) }
       seo :=
         { score := clampScoreJS ssc
           findings :=
             normalizeFindings (Json.arr (sf.map findingToJson))
               (((((iss.map issueToJson).filterMap normalizeIssue).take 12).take 6).map
                 issueAsFallbackFinding) }
       visual :=
         { score := clampScoreJS vsc
           findings :=
             normalizeFindings (Json.arr (vf.map findingToJson))
               (((((iss.map issueToJson).filterMap normalizeIssue).take 12).take 6).map
                 issueAsFallbackFinding) } } : SanReview) =
    ⟨sc, iss, top, ⟨uxsc, uxiss, uxtop⟩, ⟨asc, af⟩, ⟨ssc, sf⟩, ⟨vsc, vf⟩⟩
  rw [huxiss, huxtop, hIss, hTop, ite_self, ite_self, hscC, huxscC, haccC, hseoC, hvisC,
    hSec af haccF hA' haccLen hAe', hSec sf hseoF hS' hseoLen hSe',
    hSec vf hvisF hV' hvisLen hVe']

/-- Concrete well-formed model response: explicit score, one issue and one
finding per section, all with nonempty trimmed titles and whys. -/
def c2Witness : Json :=
  Json.obj [("score", Json.num (some 80)),
    ("issues", Json.arr [Json.obj [("title", Json.str "Vague CTA"),
      ("why", Json.str "Users hesitate.")]]),
    ("top_improvements", Json.arr [Json.obj [("before", Json.str "Sign up"),
      ("after", Json.str "Start free trial")]]),
    ("accessibility", Json.obj [("score", Json.num (some 70)),
      ("findings", Json.arr [Json.obj [("title", Json.str "Low contrast"),
        ("why", Json.str "Hard to read.")]])]),
    ("seo", Json.obj [("score", Json.num (some 75)),
      ("findings", Json.arr [Json.obj [("title", Json.str "Missing meta description"),
        ("why", Json.str "Search snippets suffer.")]])]),
    ("visual", Json.obj [("score", Json.num (some 72)),
      ("findings", Json.arr [Json.obj [("title", Json.str "Crowded hero"),
        ("why", Json.str "No focal point.")]])])]

/-- C2 (amended): `sanitizeReview` is idempotent on every input whose
sanitized review has issues and section findings with nonempty titles and
whys, fully normalized section findings (present `confidence`, i.e. not the
fallback-reshaped issues of the counterexample), and section findings that
are only empty when the issue list is; without those provisos re-sanitizing
can change the review, as `sanitizer_not_idempotent` shows. -/
theorem sanitizeReview_idempotent (x : Json)
    (hI : ∀ i ∈ (sanitizeReview x).issues, i.title ≠ "" ∧ i.why ≠ "")
    (hA : ∀ f ∈ (sanitizeReview x).accessibility.findings,
      f.confidence ≠ none ∧ f.title ≠ "" ∧ f.why ≠ "")
    (hS : ∀ f ∈ (sanitizeReview x).seo.findings,
      f.confidence ≠ none ∧ f.title ≠ "" ∧ f.why ≠ "")
    (hV : ∀ f ∈ (sanitizeReview x).visual.findings,
      f.confidence ≠ none ∧ f.title ≠ "" ∧ f.why ≠ "")
    (hAe : (sanitizeReview x).accessibility.findings = [] →
      (sanitizeReview x).issues = [])
    (hSe : (sanitizeReview x).seo.findings = [] → (sanitizeReview x).issues = [])
    (hVe : (sanitizeReview x).visual.findings = [] → (sanitizeReview x).issues = []) :
    sanitizeReview (reviewToJson (sanitizeReview x)) = sanitizeReview x :=
  sanitizeReview_stable (sanitizeReview_norm x) hI hA hS hV hAe hSe hVe

/-- The amended C2 theorem applied to the concrete response `c2Witness`,
whose hypotheses all evaluate to true. -/
theorem sanitizeReview_idempotent_witness :
    sanitizeReview (reviewToJson (sanitizeReview c2Witness)) = sanitizeReview c2Witness :=
  sanitizeReview_idempotent c2Witness (by decide) (by decide) (by decide) (by decide)
    (by decide) (by decide) (by decide)

end UXReviewer
